import Mathlib

/-!
# Artifact driver factory: shallow embedding of `workflow/artifacts/artifacts.go`

This file embeds the driver-selection and credential-hydration factory
`NewDriver` of the argo-workflows artifact subsystem and proves the behavioral
properties claimed for it.

Modelling conventions:
* Go multi-value returns `(T, error)` become pairs whose second component is an
  `Option` of the error universe `GoErr ε`; `nil` errors are `none`.
* The Go `error` interface is the type `GoErr ε`: the distinguished sentinel
  `ErrUnsupportedDriver` plus an abstract payload type `ε` for every other
  error (in particular the errors a secret resolver may produce).  A resolver
  error is propagated as the very same value, so "verbatim" is literal equality.
* The secret-resolution capability `resource.Interface` (method
  `GetSecret(ctx, name, key) (string, error)`) becomes a pure function
  `γ → String → String → String × Option (GoErr ε)` over an abstract context
  type `γ`.
* To make the claims about how often and in which order the resolver is
  consulted statable, the embedding additionally records the sequence of
  `GetSecret` calls performed, as the `calls` component of `FactoryResult`.
  Each Go call site appends exactly one `SecretCall` to the trace.
* The wfv1 descriptor types and the per-backend driver structs live outside
  the source under verification; their shapes are taken from the factory's
  field accesses and from the specification (only the fields the factory
  reads or writes are modelled).  The HDFS sub-configuration and the HDFS
  driver are opaque type parameters `η` and `δ`, and the external constructor
  `hdfs.CreateDriver` is an explicit function parameter with the factory's own
  contract.
-/

/-- A Kubernetes-style secret key selector: `(Name, Key)` identifying secret
material.  An absent/unconfigured reference is represented by the zero value
(empty `Name`). -/
structure SecretKeySelector where
  Name : String
  Key : String
deriving Repr, DecidableEq

/-- One `GetSecret(ctx, name, key)` call against the secret resolver, as
recorded in the instrumentation trace. -/
structure SecretCall where
  name : String
  key : String
deriving Repr, DecidableEq

/-- The Go `error` universe for this core: the identity-comparable sentinel
`unsupportedDriver` together with arbitrary other errors drawn from `ε`
(resolver failures, HDFS-constructor failures, ...). -/
inductive GoErr (ε : Type) where
  | unsupportedDriver : GoErr ε
  | other : ε → GoErr ε
deriving Repr, DecidableEq

/-- `var ErrUnsupportedDriver = fmt.Errorf("unsupported artifact driver")` —
the sentinel returned when no backend variant is populated. -/
def ErrUnsupportedDriver {ε : Type} : GoErr ε := GoErr.unsupportedDriver

/-- `resource.Interface`: the secret-resolution capability
`GetSecret(ctx, name, key) (string, error)`, over an abstract context type
`γ` and abstract error payload `ε`. -/
def ResourceInterface (γ ε : Type) := γ → String → String → String × Option (GoErr ε)

/-- `wfv1.S3Artifact` — the fields read by the factory.  `Insecure` is a Go
`*bool`, hence `Option Bool`. -/
structure S3Artifact where
  Endpoint : String
  Region : String
  RoleARN : String
  UseSDKCreds : Bool
  Insecure : Option Bool
  AccessKeySecret : SecretKeySelector
  SecretKeySecret : SecretKeySelector
deriving Repr, DecidableEq

/-- Modelled from the spec: `wfv1.HTTPArtifact` ("No credentials; constructed
with zero configuration") — the factory reads none of its fields, only its
presence. -/
structure HTTPArtifact where
  URL : String
deriving Repr, DecidableEq

/-- `wfv1.GitArtifact` — three independently optional secret references
(Go `*SecretKeySelector`, hence `Option`) and the host-key flag. -/
structure GitArtifact where
  InsecureIgnoreHostKey : Bool
  UsernameSecret : Option SecretKeySelector
  PasswordSecret : Option SecretKeySelector
  SSHPrivateKeySecret : Option SecretKeySelector
deriving Repr, DecidableEq

/-- Modelled from the spec: `wfv1.ArtifactoryArtifact`'s two secret
references.  The factory dereferences `.Name`/`.Key` on both with no nil or
empty-name guard ("always resolved (not gated by an empty-name check)";
"behavior when the reference is absent ... current behavior passes it
through"), so the references are modelled as plain values whose absence is
the zero value (empty `Name`/`Key`), which the factory passes through to the
resolver. -/
structure ArtifactoryArtifact where
  UsernameSecret : SecretKeySelector
  PasswordSecret : SecretKeySelector
deriving Repr, DecidableEq

/-- Modelled from the spec: `wfv1.RawArtifact` "wraps inline data directly" —
the factory reads none of its fields, only its presence. -/
structure RawArtifact where
  Data : String
deriving Repr, DecidableEq

/-- `wfv1.OSSArtifact` — the fields read by the factory. -/
structure OSSArtifact where
  Endpoint : String
  AccessKeySecret : SecretKeySelector
  SecretKeySecret : SecretKeySelector
deriving Repr, DecidableEq

/-- `wfv1.GCSArtifact` — the single service-account-key secret reference. -/
structure GCSArtifact where
  ServiceAccountKeySecret : SecretKeySelector
deriving Repr, DecidableEq

/-- `wfv1.Artifact`: the descriptor, a loosely-enforced tagged union of
independently optional backend sub-configurations.  `η` is the opaque HDFS
sub-configuration type (`wfv1.HDFSArtifact` is consumed only by the external
HDFS constructor). -/
structure Artifact (η : Type) where
  S3 : Option S3Artifact
  HTTP : Option HTTPArtifact
  Git : Option GitArtifact
  Artifactory : Option ArtifactoryArtifact
  HDFS : Option η
  Raw : Option RawArtifact
  OSS : Option OSSArtifact
  GCS : Option GCSArtifact
deriving Repr, DecidableEq

/-- `s3.S3ArtifactDriver` — the fields the factory populates. -/
structure S3ArtifactDriver where
  Endpoint : String
  AccessKey : String
  SecretKey : String
  Secure : Bool
  Region : String
  RoleARN : String
  UseSDKCreds : Bool
deriving Repr, DecidableEq

/-- `http.HTTPArtifactDriver` — constructed with zero configuration. -/
structure HTTPArtifactDriver where
deriving Repr, DecidableEq

/-- `git.GitArtifactDriver` — the fields the factory populates. -/
structure GitArtifactDriver where
  InsecureIgnoreHostKey : Bool
  Username : String
  Password : String
  SSHPrivateKey : String
deriving Repr, DecidableEq

/-- `artifactory.ArtifactoryArtifactDriver` — the fields the factory
populates. -/
structure ArtifactoryArtifactDriver where
  Username : String
  Password : String
deriving Repr, DecidableEq

/-- `raw.RawArtifactDriver` — constructed with zero configuration. -/
structure RawArtifactDriver where
deriving Repr, DecidableEq

/-- `oss.OSSArtifactDriver` — the fields the factory populates. -/
structure OSSArtifactDriver where
  Endpoint : String
  AccessKey : String
  SecretKey : String
deriving Repr, DecidableEq

/-- `gcs.ArtifactDriver` — the field the factory populates. -/
structure GCSArtifactDriver where
  ServiceAccountKey : String
deriving Repr, DecidableEq

/-- The `ArtifactDriver` interface value produced by the factory: one
constructor per concrete backend driver, with the externally-constructed
HDFS driver opaque in `δ`. -/
inductive ArtifactDriver (δ : Type) where
  | s3 : S3ArtifactDriver → ArtifactDriver δ
  | http : HTTPArtifactDriver → ArtifactDriver δ
  | git : GitArtifactDriver → ArtifactDriver δ
  | artifactory : ArtifactoryArtifactDriver → ArtifactDriver δ
  | hdfs : δ → ArtifactDriver δ
  | raw : RawArtifactDriver → ArtifactDriver δ
  | oss : OSSArtifactDriver → ArtifactDriver δ
  | gcs : GCSArtifactDriver → ArtifactDriver δ
deriving Repr, DecidableEq

/-- The factory's Go return value `(ArtifactDriver, error)` — both components
independently nilable — plus the instrumentation trace `calls`: the sequence
of `GetSecret` calls performed, in order. -/
structure FactoryResult (ε δ : Type) where
  driver : Option (ArtifactDriver δ)
  err : Option (GoErr ε)
  calls : List SecretCall
deriving Repr, DecidableEq

/-- The S3 branch of `NewDriver` (artifacts.go lines 34–61): if the
access-key secret reference's name is non-empty, resolve the access key then
the secret key, aborting on either failure; otherwise leave both credentials
empty and call the resolver zero times.  The driver struct literal mirrors
the source: `Secure: art.S3.Insecure == nil || !*art.S3.Insecure`. -/
def constructS3 {γ ε δ : Type} (ctx : γ) (ri : ResourceInterface γ ε)
    (conf : S3Artifact) : FactoryResult ε δ :=
  let mkDriver : String → String → ArtifactDriver δ := fun accessKey secretKey =>
    ArtifactDriver.s3
      { Endpoint := conf.Endpoint
        AccessKey := accessKey
        SecretKey := secretKey
        Secure := match conf.Insecure with
          | none => true
          | some insecure => !insecure
        Region := conf.Region
        RoleARN := conf.RoleARN
        UseSDKCreds := conf.UseSDKCreds }
  if conf.AccessKeySecret.Name ≠ "" then
    let c1 : SecretCall := ⟨conf.AccessKeySecret.Name, conf.AccessKeySecret.Key⟩
    match ri ctx conf.AccessKeySecret.Name conf.AccessKeySecret.Key with
    | (_, some e) => ⟨none, some e, [c1]⟩
    | (accessKeyBytes, none) =>
      let c2 : SecretCall := ⟨conf.SecretKeySecret.Name, conf.SecretKeySecret.Key⟩
      match ri ctx conf.SecretKeySecret.Name conf.SecretKeySecret.Key with
      | (_, some e) => ⟨none, some e, [c1, c2]⟩
      | (secretKeyBytes, none) =>
        ⟨some (mkDriver accessKeyBytes secretKeyBytes), none, [c1, c2]⟩
  else
    ⟨some (mkDriver "" ""), none, []⟩

/-- One optional Git credential resolution (artifacts.go: the
`if art.Git.XSecret != nil { ... }` blocks): if the reference is nil the
field stays empty and no call is made; otherwise resolve, aborting on
failure.  `prior` is the trace accumulated so far. -/
def gitResolveOpt {γ ε δ : Type} (ctx : γ) (ri : ResourceInterface γ ε)
    (sel : Option SecretKeySelector) (prior : List SecretCall) :
    (String × List SecretCall) ⊕ FactoryResult ε δ :=
  match sel with
  | none => Sum.inl ("", prior)
  | some s =>
    match ri ctx s.Name s.Key with
    | (_, some e) => Sum.inr ⟨none, some e, prior ++ [⟨s.Name, s.Key⟩]⟩
    | (v, none) => Sum.inl (v, prior ++ [⟨s.Name, s.Key⟩])

/-- Go's early-return pattern for an optional resolution step: an `inr`
(failed) step returns its error result immediately, an `inl` step passes the
resolved value and accumulated trace to the continuation. -/
def bindStep {ε δ : Type} (x : (String × List SecretCall) ⊕ FactoryResult ε δ)
    (f : String → List SecretCall → FactoryResult ε δ) : FactoryResult ε δ :=
  match x with
  | Sum.inr r => r
  | Sum.inl (v, cs) => f v cs

/-- The Git branch of `NewDriver` (artifacts.go lines 65–92): three
independently optional credentials, resolved in the order username,
password, SSH private key, each only when its reference is non-nil. -/
def constructGit {γ ε δ : Type} (ctx : γ) (ri : ResourceInterface γ ε)
    (conf : GitArtifact) : FactoryResult ε δ :=
  bindStep (gitResolveOpt (δ := δ) ctx ri conf.UsernameSecret []) fun username cs1 =>
    bindStep (gitResolveOpt (δ := δ) ctx ri conf.PasswordSecret cs1) fun password cs2 =>
      bindStep (gitResolveOpt (δ := δ) ctx ri conf.SSHPrivateKeySecret cs2) fun sshPrivateKey cs3 =>
        ⟨some (ArtifactDriver.git
          { InsecureIgnoreHostKey := conf.InsecureIgnoreHostKey
            Username := username
            Password := password
            SSHPrivateKey := sshPrivateKey }), none, cs3⟩

/-- The Artifactory branch of `NewDriver` (artifacts.go lines 93–108): both
secrets are always resolved — username first, password second — with no
empty-name guard; either failure aborts. -/
def constructArtifactory {γ ε δ : Type} (ctx : γ) (ri : ResourceInterface γ ε)
    (conf : ArtifactoryArtifact) : FactoryResult ε δ :=
  let c1 : SecretCall := ⟨conf.UsernameSecret.Name, conf.UsernameSecret.Key⟩
  match ri ctx conf.UsernameSecret.Name conf.UsernameSecret.Key with
  | (_, some e) => ⟨none, some e, [c1]⟩
  | (usernameBytes, none) =>
    let c2 : SecretCall := ⟨conf.PasswordSecret.Name, conf.PasswordSecret.Key⟩
    match ri ctx conf.PasswordSecret.Name conf.PasswordSecret.Key with
    | (_, some e) => ⟨none, some e, [c1, c2]⟩
    | (passwordBytes, none) =>
      ⟨some (ArtifactDriver.artifactory
        { Username := usernameBytes, Password := passwordBytes }), none, [c1, c2]⟩

/-- The OSS branch of `NewDriver` (artifacts.go lines 116–138): same optional
access/secret pair pattern as S3, but the driver carries only endpoint and
credentials. -/
def constructOSS {γ ε δ : Type} (ctx : γ) (ri : ResourceInterface γ ε)
    (conf : OSSArtifact) : FactoryResult ε δ :=
  if conf.AccessKeySecret.Name ≠ "" then
    let c1 : SecretCall := ⟨conf.AccessKeySecret.Name, conf.AccessKeySecret.Key⟩
    match ri ctx conf.AccessKeySecret.Name conf.AccessKeySecret.Key with
    | (_, some e) => ⟨none, some e, [c1]⟩
    | (accessKeyBytes, none) =>
      let c2 : SecretCall := ⟨conf.SecretKeySecret.Name, conf.SecretKeySecret.Key⟩
      match ri ctx conf.SecretKeySecret.Name conf.SecretKeySecret.Key with
      | (_, some e) => ⟨none, some e, [c1, c2]⟩
      | (secretKeyBytes, none) =>
        ⟨some (ArtifactDriver.oss
          { Endpoint := conf.Endpoint
            AccessKey := accessKeyBytes
            SecretKey := secretKeyBytes }), none, [c1, c2]⟩
  else
    ⟨some (ArtifactDriver.oss
      { Endpoint := conf.Endpoint, AccessKey := "", SecretKey := "" }), none, []⟩

/-- The GCS branch of `NewDriver` (artifacts.go lines 141–153): the single
service-account-key secret is resolved only when its reference name is
non-empty; otherwise the key stays empty (workload identity assumed). -/
def constructGCS {γ ε δ : Type} (ctx : γ) (ri : ResourceInterface γ ε)
    (conf : GCSArtifact) : FactoryResult ε δ :=
  if conf.ServiceAccountKeySecret.Name ≠ "" then
    let c1 : SecretCall := ⟨conf.ServiceAccountKeySecret.Name, conf.ServiceAccountKeySecret.Key⟩
    match ri ctx conf.ServiceAccountKeySecret.Name conf.ServiceAccountKeySecret.Key with
    | (_, some e) => ⟨none, some e, [c1]⟩
    | (serviceAccountKeyBytes, none) =>
      ⟨some (ArtifactDriver.gcs { ServiceAccountKey := serviceAccountKeyBytes }), none, [c1]⟩
  else
    ⟨some (ArtifactDriver.gcs { ServiceAccountKey := "" }), none, []⟩

/-- `NewDriver` (artifacts.go lines 33–156): test the descriptor variants in
the source's fixed order — S3, HTTP, Git, Artifactory, HDFS, Raw, OSS, GCS —
and construct the driver of the first populated one; if none is populated
return `(nil, ErrUnsupportedDriver)`.  `hdfsCreateDriver` is the external
constructor `hdfs.CreateDriver(ctx, ri, art.HDFS)`, sharing the factory's
contract (its own `GetSecret` calls appear in its returned trace). -/
def NewDriver {γ ε δ η : Type} (ctx : γ) (art : Artifact η) (ri : ResourceInterface γ ε)
    (hdfsCreateDriver : γ → ResourceInterface γ ε → η → FactoryResult ε δ) :
    FactoryResult ε δ :=
  if let some conf := art.S3 then
    constructS3 ctx ri conf
  else if art.HTTP.isSome then
    ⟨some (ArtifactDriver.http {}), none, []⟩
  else if let some conf := art.Git then
    constructGit ctx ri conf
  else if let some conf := art.Artifactory then
    constructArtifactory ctx ri conf
  else if let some conf := art.HDFS then
    hdfsCreateDriver ctx ri conf
  else if art.Raw.isSome then
    ⟨some (ArtifactDriver.raw {}), none, []⟩
  else if let some conf := art.OSS then
    constructOSS ctx ri conf
  else if let some conf := art.GCS then
    constructGCS ctx ri conf
  else
    ⟨none, some ErrUnsupportedDriver, []⟩

/-! ## Spec-side formulation of the dispatch algorithm -/

/-- The spec's backend variant names: ObjectStore (S3), HTTP, Git,
ArtifactRepository (Artifactory), DistributedFS (HDFS), Raw,
AlternateObjectStore (OSS), CloudStore (GCS). -/
inductive BackendVariant where
  | ObjectStore
  | HTTP
  | Git
  | ArtifactRepository
  | DistributedFS
  | Raw
  | AlternateObjectStore
  | CloudStore
deriving Repr, DecidableEq

/-- The spec's documented priority order of backend variants. -/
def variantPriority : List BackendVariant :=
  [BackendVariant.ObjectStore, BackendVariant.HTTP, BackendVariant.Git,
   BackendVariant.ArtifactRepository, BackendVariant.DistributedFS,
   BackendVariant.Raw, BackendVariant.AlternateObjectStore, BackendVariant.CloudStore]

/-- Whether a given backend variant is populated in the descriptor. -/
def variantPopulated {η : Type} (art : Artifact η) : BackendVariant → Bool
  | BackendVariant.ObjectStore => art.S3.isSome
  | BackendVariant.HTTP => art.HTTP.isSome
  | BackendVariant.Git => art.Git.isSome
  | BackendVariant.ArtifactRepository => art.Artifactory.isSome
  | BackendVariant.DistributedFS => art.HDFS.isSome
  | BackendVariant.Raw => art.Raw.isSome
  | BackendVariant.AlternateObjectStore => art.OSS.isSome
  | BackendVariant.CloudStore => art.GCS.isSome

/-- The first populated variant in the spec's priority order, if any. -/
def firstPopulatedVariant {η : Type} (art : Artifact η) : Option BackendVariant :=
  variantPriority.find? (variantPopulated art)

/-- Modelled from the spec: "test descriptor variants in a fixed, documented
priority order ... and act on the first one found populated", constructing
that variant's driver; if none is populated, the sentinel.  (The `none`
sub-config arms are unreachable: the chosen variant is populated.) -/
def dispatchByPriority {γ ε δ η : Type} (ctx : γ) (art : Artifact η)
    (ri : ResourceInterface γ ε)
    (hdfsCreateDriver : γ → ResourceInterface γ ε → η → FactoryResult ε δ) :
    FactoryResult ε δ :=
  match firstPopulatedVariant art with
  | some BackendVariant.ObjectStore =>
    match art.S3 with
    | some conf => constructS3 ctx ri conf
    | none => ⟨none, some ErrUnsupportedDriver, []⟩
  | some BackendVariant.HTTP => ⟨some (ArtifactDriver.http {}), none, []⟩
  | some BackendVariant.Git =>
    match art.Git with
    | some conf => constructGit ctx ri conf
    | none => ⟨none, some ErrUnsupportedDriver, []⟩
  | some BackendVariant.ArtifactRepository =>
    match art.Artifactory with
    | some conf => constructArtifactory ctx ri conf
    | none => ⟨none, some ErrUnsupportedDriver, []⟩
  | some BackendVariant.DistributedFS =>
    match art.HDFS with
    | some conf => hdfsCreateDriver ctx ri conf
    | none => ⟨none, some ErrUnsupportedDriver, []⟩
  | some BackendVariant.Raw => ⟨some (ArtifactDriver.raw {}), none, []⟩
  | some BackendVariant.AlternateObjectStore =>
    match art.OSS with
    | some conf => constructOSS ctx ri conf
    | none => ⟨none, some ErrUnsupportedDriver, []⟩
  | some BackendVariant.CloudStore =>
    match art.GCS with
    | some conf => constructGCS ctx ri conf
    | none => ⟨none, some ErrUnsupportedDriver, []⟩
  | none => ⟨none, some ErrUnsupportedDriver, []⟩

/-- The descriptor with every variant other than the first populated one (in
priority order) cleared; used to state that later populated variants are
silently ignored. -/
def clearOtherVariants {η : Type} (art : Artifact η) : Artifact η :=
  match firstPopulatedVariant art with
  | some BackendVariant.ObjectStore => ⟨art.S3, none, none, none, none, none, none, none⟩
  | some BackendVariant.HTTP => ⟨none, art.HTTP, none, none, none, none, none, none⟩
  | some BackendVariant.Git => ⟨none, none, art.Git, none, none, none, none, none⟩
  | some BackendVariant.ArtifactRepository => ⟨none, none, none, art.Artifactory, none, none, none, none⟩
  | some BackendVariant.DistributedFS => ⟨none, none, none, none, art.HDFS, none, none, none⟩
  | some BackendVariant.Raw => ⟨none, none, none, none, none, art.Raw, none, none⟩
  | some BackendVariant.AlternateObjectStore => ⟨none, none, none, none, none, none, art.OSS, none⟩
  | some BackendVariant.CloudStore => ⟨none, none, none, none, none, none, none, art.GCS⟩
  | none => art

/-! ## Concrete fixtures used by the witness theorems -/

/-- A concrete resolver that succeeds on every request. -/
def okResolver : ResourceInterface Unit String := fun _ _ _ => ("PRIVATEKEY", none)

/-- A concrete resolver that fails on every request. -/
def failResolver : ResourceInterface Unit String :=
  fun _ _ _ => ("", some (GoErr.other "secret store unavailable"))

/-- A concrete external HDFS constructor stub. -/
def hdfsStub : Unit → ResourceInterface Unit String → Unit → FactoryResult String Unit :=
  fun _ _ _ => ⟨some (ArtifactDriver.hdfs ()), none, []⟩

/-- The empty descriptor: no backend variant populated. -/
def emptyArtifact {η : Type} : Artifact η := ⟨none, none, none, none, none, none, none, none⟩

/-- The spec's S3 scenario config: endpoint `store.example`, empty access-key
secret name. -/
def s3ConfEmptyAccess : S3Artifact :=
  ⟨"store.example", "", "", false, none, ⟨"", ""⟩, ⟨"", ""⟩⟩

/-- A descriptor populated only with `s3ConfEmptyAccess`. -/
def artS3EmptyAccess : Artifact Unit :=
  ⟨some s3ConfEmptyAccess, none, none, none, none, none, none, none⟩

/-- An S3 config with non-empty access-key secret name. -/
def s3ConfWithKeys : S3Artifact :=
  ⟨"ep", "region-1", "arn:role", true, some true, ⟨"ak", "k1"⟩, ⟨"sk", "k2"⟩⟩

/-- A descriptor populated only with `s3ConfWithKeys`. -/
def artS3WithKeys : Artifact Unit :=
  ⟨some s3ConfWithKeys, none, none, none, none, none, none, none⟩

/-! ## Spec-side credential helpers and Git chain views -/

/-- The credential value an all-successful resolver yields for an optional
secret reference: empty when the reference is nil, the resolved plaintext
otherwise. -/
def resolvedCredential {γ ε : Type} (ctx : γ) (ri : ResourceInterface γ ε) :
    Option SecretKeySelector → String
  | none => ""
  | some sel => (ri ctx sel.Name sel.Key).1

/-- The resolver calls an optional secret reference induces: none when the
reference is nil, exactly one otherwise. -/
def credentialCalls : Option SecretKeySelector → List SecretCall
  | none => []
  | some sel => [⟨sel.Name, sel.Key⟩]

/-- A Git config with only the SSH private-key reference set (the spec's
scenario `{Git: {SSHPrivateKeySecret: {Name:"k", Key:"id_rsa"}}}`). -/
def gitConfSSHOnly : GitArtifact := ⟨false, none, none, some ⟨"k", "id_rsa"⟩⟩

/-- A descriptor populated only with `gitConfSSHOnly`. -/
def artGitSSHOnly : Artifact Unit :=
  ⟨none, none, some gitConfSSHOnly, none, none, none, none, none⟩

/-- An Artifactory config whose secret references are absent (zero values). -/
def artifactoryConfEmpty : ArtifactoryArtifact := ⟨⟨"", ""⟩, ⟨"", ""⟩⟩

/-- A descriptor populated only with `artifactoryConfEmpty`. -/
def artArtifactoryEmpty : Artifact Unit :=
  ⟨none, none, none, some artifactoryConfEmpty, none, none, none, none⟩

/-- A GCS config with a populated service-account-key reference. -/
def gcsConfWithKey : GCSArtifact := ⟨⟨"sa", "key.json"⟩⟩

/-- A descriptor populated only with `gcsConfWithKey`. -/
def artGCSWithKey : Artifact Unit :=
  ⟨none, none, none, none, none, none, none, some gcsConfWithKey⟩

/-- A descriptor populated only with an HDFS sub-config. -/
def artHDFSOnly : Artifact Unit := ⟨none, none, none, none, some (), none, none, none⟩

/-- The last step of the Git chain: the optional SSH-key resolution followed
by driver assembly (proof-infrastructure view of `constructGit`'s tail). -/
def gitStep3 {γ ε δ : Type} (ctx : γ) (ri : ResourceInterface γ ε) (ihk : Bool)
    (username password : String) (selS : Option SecretKeySelector)
    (cs2 : List SecretCall) : FactoryResult ε δ :=
  bindStep (gitResolveOpt (δ := δ) ctx ri selS cs2) fun sshPrivateKey cs3 =>
    ⟨some (ArtifactDriver.git
      { InsecureIgnoreHostKey := ihk
        Username := username
        Password := password
        SSHPrivateKey := sshPrivateKey }), none, cs3⟩

/-- The last two steps of the Git chain: optional password resolution, then
`gitStep3`. -/
def gitStep2 {γ ε δ : Type} (ctx : γ) (ri : ResourceInterface γ ε) (ihk : Bool)
    (username : String) (selP selS : Option SecretKeySelector)
    (cs1 : List SecretCall) : FactoryResult ε δ :=
  bindStep (gitResolveOpt (δ := δ) ctx ri selP cs1) fun password cs2 =>
    gitStep3 ctx ri ihk username password selS cs2

/-- A second concrete resolver agreeing with `okResolver` only on the call
`("k", "id_rsa")`. -/
def okResolverPrimed : ResourceInterface Unit String :=
  fun _ n k => (if n = "k" && k = "id_rsa" then "PRIVATEKEY" else "OTHER", none)

/-- An S3 config with a non-empty access-key name but an empty secret-key
name. -/
def s3ConfEmptySecretName : S3Artifact :=
  ⟨"ep2", "", "", false, none, ⟨"ak", "k1"⟩, ⟨"", "k2"⟩⟩

/-- A descriptor populated only with `s3ConfEmptySecretName`. -/
def artS3EmptySecretName : Artifact Unit :=
  ⟨some s3ConfEmptySecretName, none, none, none, none, none, none, none⟩

/-! ## Claim theorems -/

/-- C1: `NewDriver` tests the backend variants in the fixed priority order
ObjectStore (S3), HTTP, Git, ArtifactRepository (Artifactory), DistributedFS
(HDFS), Raw, AlternateObjectStore (OSS), CloudStore (GCS), constructs the
driver of the first populated variant, and silently ignores any later
variants that are also populated (clearing them does not change the
result). -/
theorem newDriver_dispatches_by_priority {γ ε δ η : Type} (ctx : γ)
    (art : Artifact η) (ri : ResourceInterface γ ε)
    (hdfsCreateDriver : γ → ResourceInterface γ ε → η → FactoryResult ε δ) :
    NewDriver ctx art ri hdfsCreateDriver = dispatchByPriority ctx art ri hdfsCreateDriver ∧
    NewDriver ctx art ri hdfsCreateDriver =
      NewDriver ctx (clearOtherVariants art) ri hdfsCreateDriver := by
  obtain ⟨s3c, httpc, gitc, afc, hdfsc, rawc, ossc, gcsc⟩ := art
  cases s3c <;> cases httpc <;> cases gitc <;> cases afc <;> cases hdfsc <;>
    cases rawc <;> cases ossc <;> cases gcsc <;> exact ⟨rfl, rfl⟩

/-! ## Characterization lemmas for the per-backend constructors -/

theorem constructS3_name_empty {γ ε δ : Type} (ctx : γ) (ri : ResourceInterface γ ε)
    (conf : S3Artifact) (h : conf.AccessKeySecret.Name = "") :
    constructS3 (δ := δ) ctx ri conf =
      ⟨some (ArtifactDriver.s3
        { Endpoint := conf.Endpoint
          AccessKey := ""
          SecretKey := ""
          Secure := match conf.Insecure with
            | none => true
            | some insecure => !insecure
          Region := conf.Region
          RoleARN := conf.RoleARN
          UseSDKCreds := conf.UseSDKCreds }), none, []⟩ := by
  unfold constructS3
  rw [if_neg (by simp [h])]

theorem constructS3_access_err {γ ε δ : Type} (ctx : γ) (ri : ResourceInterface γ ε)
    (conf : S3Artifact) (v : String) (e : GoErr ε)
    (hn : conf.AccessKeySecret.Name ≠ "")
    (h : ri ctx conf.AccessKeySecret.Name conf.AccessKeySecret.Key = (v, some e)) :
    constructS3 (δ := δ) ctx ri conf =
      ⟨none, some e, [⟨conf.AccessKeySecret.Name, conf.AccessKeySecret.Key⟩]⟩ := by
  unfold constructS3
  rw [if_pos hn, h]

theorem constructS3_secret_err {γ ε δ : Type} (ctx : γ) (ri : ResourceInterface γ ε)
    (conf : S3Artifact) (v1 v2 : String) (e : GoErr ε)
    (hn : conf.AccessKeySecret.Name ≠ "")
    (h1 : ri ctx conf.AccessKeySecret.Name conf.AccessKeySecret.Key = (v1, none))
    (h2 : ri ctx conf.SecretKeySecret.Name conf.SecretKeySecret.Key = (v2, some e)) :
    constructS3 (δ := δ) ctx ri conf =
      ⟨none, some e,
       [⟨conf.AccessKeySecret.Name, conf.AccessKeySecret.Key⟩,
        ⟨conf.SecretKeySecret.Name, conf.SecretKeySecret.Key⟩]⟩ := by
  unfold constructS3
  rw [if_pos hn, h1, h2]

theorem constructS3_ok {γ ε δ : Type} (ctx : γ) (ri : ResourceInterface γ ε)
    (conf : S3Artifact) (v1 v2 : String)
    (hn : conf.AccessKeySecret.Name ≠ "")
    (h1 : ri ctx conf.AccessKeySecret.Name conf.AccessKeySecret.Key = (v1, none))
    (h2 : ri ctx conf.SecretKeySecret.Name conf.SecretKeySecret.Key = (v2, none)) :
    constructS3 (δ := δ) ctx ri conf =
      ⟨some (ArtifactDriver.s3
        { Endpoint := conf.Endpoint
          AccessKey := v1
          SecretKey := v2
          Secure := match conf.Insecure with
            | none => true
            | some insecure => !insecure
          Region := conf.Region
          RoleARN := conf.RoleARN
          UseSDKCreds := conf.UseSDKCreds }), none,
       [⟨conf.AccessKeySecret.Name, conf.AccessKeySecret.Key⟩,
        ⟨conf.SecretKeySecret.Name, conf.SecretKeySecret.Key⟩]⟩ := by
  unfold constructS3
  rw [if_pos hn, h1, h2]

theorem constructOSS_name_empty {γ ε δ : Type} (ctx : γ) (ri : ResourceInterface γ ε)
    (conf : OSSArtifact) (h : conf.AccessKeySecret.Name = "") :
    constructOSS (δ := δ) ctx ri conf =
      ⟨some (ArtifactDriver.oss
        { Endpoint := conf.Endpoint, AccessKey := "", SecretKey := "" }), none, []⟩ := by
  unfold constructOSS
  rw [if_neg (by simp [h])]

theorem constructOSS_access_err {γ ε δ : Type} (ctx : γ) (ri : ResourceInterface γ ε)
    (conf : OSSArtifact) (v : String) (e : GoErr ε)
    (hn : conf.AccessKeySecret.Name ≠ "")
    (h : ri ctx conf.AccessKeySecret.Name conf.AccessKeySecret.Key = (v, some e)) :
    constructOSS (δ := δ) ctx ri conf =
      ⟨none, some e, [⟨conf.AccessKeySecret.Name, conf.AccessKeySecret.Key⟩]⟩ := by
  unfold constructOSS
  rw [if_pos hn, h]

theorem constructOSS_secret_err {γ ε δ : Type} (ctx : γ) (ri : ResourceInterface γ ε)
    (conf : OSSArtifact) (v1 v2 : String) (e : GoErr ε)
    (hn : conf.AccessKeySecret.Name ≠ "")
    (h1 : ri ctx conf.AccessKeySecret.Name conf.AccessKeySecret.Key = (v1, none))
    (h2 : ri ctx conf.SecretKeySecret.Name conf.SecretKeySecret.Key = (v2, some e)) :
    constructOSS (δ := δ) ctx ri conf =
      ⟨none, some e,
       [⟨conf.AccessKeySecret.Name, conf.AccessKeySecret.Key⟩,
        ⟨conf.SecretKeySecret.Name, conf.SecretKeySecret.Key⟩]⟩ := by
  unfold constructOSS
  rw [if_pos hn, h1, h2]

theorem constructOSS_ok {γ ε δ : Type} (ctx : γ) (ri : ResourceInterface γ ε)
    (conf : OSSArtifact) (v1 v2 : String)
    (hn : conf.AccessKeySecret.Name ≠ "")
    (h1 : ri ctx conf.AccessKeySecret.Name conf.AccessKeySecret.Key = (v1, none))
    (h2 : ri ctx conf.SecretKeySecret.Name conf.SecretKeySecret.Key = (v2, none)) :
    constructOSS (δ := δ) ctx ri conf =
      ⟨some (ArtifactDriver.oss
        { Endpoint := conf.Endpoint, AccessKey := v1, SecretKey := v2 }), none,
       [⟨conf.AccessKeySecret.Name, conf.AccessKeySecret.Key⟩,
        ⟨conf.SecretKeySecret.Name, conf.SecretKeySecret.Key⟩]⟩ := by
  unfold constructOSS
  rw [if_pos hn, h1, h2]

theorem constructArtifactory_username_err {γ ε δ : Type} (ctx : γ)
    (ri : ResourceInterface γ ε) (conf : ArtifactoryArtifact) (v : String) (e : GoErr ε)
    (h : ri ctx conf.UsernameSecret.Name conf.UsernameSecret.Key = (v, some e)) :
    constructArtifactory (δ := δ) ctx ri conf =
      ⟨none, some e, [⟨conf.UsernameSecret.Name, conf.UsernameSecret.Key⟩]⟩ := by
  unfold constructArtifactory
  rw [h]

theorem constructArtifactory_password_err {γ ε δ : Type} (ctx : γ)
    (ri : ResourceInterface γ ε) (conf : ArtifactoryArtifact) (v1 v2 : String) (e : GoErr ε)
    (h1 : ri ctx conf.UsernameSecret.Name conf.UsernameSecret.Key = (v1, none))
    (h2 : ri ctx conf.PasswordSecret.Name conf.PasswordSecret.Key = (v2, some e)) :
    constructArtifactory (δ := δ) ctx ri conf =
      ⟨none, some e,
       [⟨conf.UsernameSecret.Name, conf.UsernameSecret.Key⟩,
        ⟨conf.PasswordSecret.Name, conf.PasswordSecret.Key⟩]⟩ := by
  unfold constructArtifactory
  rw [h1, h2]

theorem constructArtifactory_ok {γ ε δ : Type} (ctx : γ)
    (ri : ResourceInterface γ ε) (conf : ArtifactoryArtifact) (v1 v2 : String)
    (h1 : ri ctx conf.UsernameSecret.Name conf.UsernameSecret.Key = (v1, none))
    (h2 : ri ctx conf.PasswordSecret.Name conf.PasswordSecret.Key = (v2, none)) :
    constructArtifactory (δ := δ) ctx ri conf =
      ⟨some (ArtifactDriver.artifactory { Username := v1, Password := v2 }), none,
       [⟨conf.UsernameSecret.Name, conf.UsernameSecret.Key⟩,
        ⟨conf.PasswordSecret.Name, conf.PasswordSecret.Key⟩]⟩ := by
  unfold constructArtifactory
  rw [h1, h2]

theorem constructGCS_name_empty {γ ε δ : Type} (ctx : γ) (ri : ResourceInterface γ ε)
    (conf : GCSArtifact) (h : conf.ServiceAccountKeySecret.Name = "") :
    constructGCS (δ := δ) ctx ri conf =
      ⟨some (ArtifactDriver.gcs { ServiceAccountKey := "" }), none, []⟩ := by
  unfold constructGCS
  rw [if_neg (by simp [h])]

theorem constructGCS_err {γ ε δ : Type} (ctx : γ) (ri : ResourceInterface γ ε)
    (conf : GCSArtifact) (v : String) (e : GoErr ε)
    (hn : conf.ServiceAccountKeySecret.Name ≠ "")
    (h : ri ctx conf.ServiceAccountKeySecret.Name conf.ServiceAccountKeySecret.Key = (v, some e)) :
    constructGCS (δ := δ) ctx ri conf =
      ⟨none, some e,
       [⟨conf.ServiceAccountKeySecret.Name, conf.ServiceAccountKeySecret.Key⟩]⟩ := by
  unfold constructGCS
  rw [if_pos hn, h]

theorem constructGCS_ok {γ ε δ : Type} (ctx : γ) (ri : ResourceInterface γ ε)
    (conf : GCSArtifact) (v : String)
    (hn : conf.ServiceAccountKeySecret.Name ≠ "")
    (h : ri ctx conf.ServiceAccountKeySecret.Name conf.ServiceAccountKeySecret.Key = (v, none)) :
    constructGCS (δ := δ) ctx ri conf =
      ⟨some (ArtifactDriver.gcs { ServiceAccountKey := v }), none,
       [⟨conf.ServiceAccountKeySecret.Name, conf.ServiceAccountKeySecret.Key⟩]⟩ := by
  unfold constructGCS
  rw [if_pos hn, h]

theorem gitResolveOpt_none {γ ε δ : Type} (ctx : γ) (ri : ResourceInterface γ ε)
    (prior : List SecretCall) :
    gitResolveOpt (δ := δ) ctx ri none prior = Sum.inl ("", prior) := rfl

theorem gitResolveOpt_err {γ ε δ : Type} (ctx : γ) (ri : ResourceInterface γ ε)
    (s : SecretKeySelector) (prior : List SecretCall) (v : String) (e : GoErr ε)
    (h : ri ctx s.Name s.Key = (v, some e)) :
    gitResolveOpt (δ := δ) ctx ri (some s) prior =
      Sum.inr ⟨none, some e, prior ++ [⟨s.Name, s.Key⟩]⟩ := by
  simp only [gitResolveOpt, h]

theorem gitResolveOpt_ok {γ ε δ : Type} (ctx : γ) (ri : ResourceInterface γ ε)
    (s : SecretKeySelector) (prior : List SecretCall) (v : String)
    (h : ri ctx s.Name s.Key = (v, none)) :
    gitResolveOpt (δ := δ) ctx ri (some s) prior = Sum.inl (v, prior ++ [⟨s.Name, s.Key⟩]) := by
  simp only [gitResolveOpt, h]

theorem bindStep_inl {ε δ : Type} (v : String) (cs : List SecretCall)
    (f : String → List SecretCall → FactoryResult ε δ) :
    bindStep (Sum.inl (v, cs)) f = f v cs := rfl

theorem bindStep_inr {ε δ : Type} (r : FactoryResult ε δ)
    (f : String → List SecretCall → FactoryResult ε δ) :
    bindStep (Sum.inr r) f = r := rfl

/-! ## Characterization lemmas for the dispatch of `NewDriver` -/

theorem newDriver_s3_branch {γ ε δ η : Type} (ctx : γ) (art : Artifact η)
    (ri : ResourceInterface γ ε)
    (hdfsCreateDriver : γ → ResourceInterface γ ε → η → FactoryResult ε δ)
    (conf : S3Artifact) (h : art.S3 = some conf) :
    NewDriver ctx art ri hdfsCreateDriver = constructS3 ctx ri conf := by
  unfold NewDriver
  rw [h]

theorem newDriver_http_branch {γ ε δ η : Type} (ctx : γ) (art : Artifact η)
    (ri : ResourceInterface γ ε)
    (hdfsCreateDriver : γ → ResourceInterface γ ε → η → FactoryResult ε δ)
    (conf : HTTPArtifact) (h1 : art.S3 = none) (h2 : art.HTTP = some conf) :
    NewDriver ctx art ri hdfsCreateDriver = ⟨some (ArtifactDriver.http {}), none, []⟩ := by
  unfold NewDriver
  rw [h1, h2]
  rfl

theorem newDriver_git_branch {γ ε δ η : Type} (ctx : γ) (art : Artifact η)
    (ri : ResourceInterface γ ε)
    (hdfsCreateDriver : γ → ResourceInterface γ ε → η → FactoryResult ε δ)
    (conf : GitArtifact) (h1 : art.S3 = none) (h2 : art.HTTP = none)
    (h3 : art.Git = some conf) :
    NewDriver ctx art ri hdfsCreateDriver = constructGit ctx ri conf := by
  unfold NewDriver
  rw [h1, h2, h3]
  rfl

theorem newDriver_artifactory_branch {γ ε δ η : Type} (ctx : γ) (art : Artifact η)
    (ri : ResourceInterface γ ε)
    (hdfsCreateDriver : γ → ResourceInterface γ ε → η → FactoryResult ε δ)
    (conf : ArtifactoryArtifact) (h1 : art.S3 = none) (h2 : art.HTTP = none)
    (h3 : art.Git = none) (h4 : art.Artifactory = some conf) :
    NewDriver ctx art ri hdfsCreateDriver = constructArtifactory ctx ri conf := by
  unfold NewDriver
  rw [h1, h2, h3, h4]
  rfl

theorem newDriver_hdfs_branch {γ ε δ η : Type} (ctx : γ) (art : Artifact η)
    (ri : ResourceInterface γ ε)
    (hdfsCreateDriver : γ → ResourceInterface γ ε → η → FactoryResult ε δ)
    (conf : η) (h1 : art.S3 = none) (h2 : art.HTTP = none)
    (h3 : art.Git = none) (h4 : art.Artifactory = none) (h5 : art.HDFS = some conf) :
    NewDriver ctx art ri hdfsCreateDriver = hdfsCreateDriver ctx ri conf := by
  unfold NewDriver
  rw [h1, h2, h3, h4, h5]
  rfl

theorem newDriver_raw_branch {γ ε δ η : Type} (ctx : γ) (art : Artifact η)
    (ri : ResourceInterface γ ε)
    (hdfsCreateDriver : γ → ResourceInterface γ ε → η → FactoryResult ε δ)
    (conf : RawArtifact) (h1 : art.S3 = none) (h2 : art.HTTP = none)
    (h3 : art.Git = none) (h4 : art.Artifactory = none) (h5 : art.HDFS = none)
    (h6 : art.Raw = some conf) :
    NewDriver ctx art ri hdfsCreateDriver = ⟨some (ArtifactDriver.raw {}), none, []⟩ := by
  unfold NewDriver
  rw [h1, h2, h3, h4, h5, h6]
  rfl

theorem newDriver_oss_branch {γ ε δ η : Type} (ctx : γ) (art : Artifact η)
    (ri : ResourceInterface γ ε)
    (hdfsCreateDriver : γ → ResourceInterface γ ε → η → FactoryResult ε δ)
    (conf : OSSArtifact) (h1 : art.S3 = none) (h2 : art.HTTP = none)
    (h3 : art.Git = none) (h4 : art.Artifactory = none) (h5 : art.HDFS = none)
    (h6 : art.Raw = none) (h7 : art.OSS = some conf) :
    NewDriver ctx art ri hdfsCreateDriver = constructOSS ctx ri conf := by
  unfold NewDriver
  rw [h1, h2, h3, h4, h5, h6, h7]
  rfl

theorem newDriver_gcs_branch {γ ε δ η : Type} (ctx : γ) (art : Artifact η)
    (ri : ResourceInterface γ ε)
    (hdfsCreateDriver : γ → ResourceInterface γ ε → η → FactoryResult ε δ)
    (conf : GCSArtifact) (h1 : art.S3 = none) (h2 : art.HTTP = none)
    (h3 : art.Git = none) (h4 : art.Artifactory = none) (h5 : art.HDFS = none)
    (h6 : art.Raw = none) (h7 : art.OSS = none) (h8 : art.GCS = some conf) :
    NewDriver ctx art ri hdfsCreateDriver = constructGCS ctx ri conf := by
  unfold NewDriver
  rw [h1, h2, h3, h4, h5, h6, h7, h8]
  rfl

theorem newDriver_no_variant {γ ε δ η : Type} (ctx : γ) (art : Artifact η)
    (ri : ResourceInterface γ ε)
    (hdfsCreateDriver : γ → ResourceInterface γ ε → η → FactoryResult ε δ)
    (h1 : art.S3 = none) (h2 : art.HTTP = none) (h3 : art.Git = none)
    (h4 : art.Artifactory = none) (h5 : art.HDFS = none) (h6 : art.Raw = none)
    (h7 : art.OSS = none) (h8 : art.GCS = none) :
    NewDriver ctx art ri hdfsCreateDriver = ⟨none, some ErrUnsupportedDriver, []⟩ := by
  unfold NewDriver
  rw [h1, h2, h3, h4, h5, h6, h7, h8]
  rfl

/-! ## Result-shape helpers: no branch ever returns nil driver with nil error -/

theorem constructS3_not_nil_nil {γ ε δ : Type} (ctx : γ) (ri : ResourceInterface γ ε)
    (conf : S3Artifact) :
    ¬((constructS3 (δ := δ) ctx ri conf).driver = none ∧
      (constructS3 (δ := δ) ctx ri conf).err = none) := by
  by_cases hn : conf.AccessKeySecret.Name = ""
  · rw [constructS3_name_empty ctx ri conf hn]; simp
  · rcases h1 : ri ctx conf.AccessKeySecret.Name conf.AccessKeySecret.Key with ⟨v1, e1⟩
    cases e1 with
    | some e => rw [constructS3_access_err ctx ri conf v1 e hn h1]; simp
    | none =>
      rcases h2 : ri ctx conf.SecretKeySecret.Name conf.SecretKeySecret.Key with ⟨v2, e2⟩
      cases e2 with
      | some e => rw [constructS3_secret_err ctx ri conf v1 v2 e hn h1 h2]; simp
      | none => rw [constructS3_ok ctx ri conf v1 v2 hn h1 h2]; simp

theorem constructOSS_not_nil_nil {γ ε δ : Type} (ctx : γ) (ri : ResourceInterface γ ε)
    (conf : OSSArtifact) :
    ¬((constructOSS (δ := δ) ctx ri conf).driver = none ∧
      (constructOSS (δ := δ) ctx ri conf).err = none) := by
  by_cases hn : conf.AccessKeySecret.Name = ""
  · rw [constructOSS_name_empty ctx ri conf hn]; simp
  · rcases h1 : ri ctx conf.AccessKeySecret.Name conf.AccessKeySecret.Key with ⟨v1, e1⟩
    cases e1 with
    | some e => rw [constructOSS_access_err ctx ri conf v1 e hn h1]; simp
    | none =>
      rcases h2 : ri ctx conf.SecretKeySecret.Name conf.SecretKeySecret.Key with ⟨v2, e2⟩
      cases e2 with
      | some e => rw [constructOSS_secret_err ctx ri conf v1 v2 e hn h1 h2]; simp
      | none => rw [constructOSS_ok ctx ri conf v1 v2 hn h1 h2]; simp

theorem constructArtifactory_not_nil_nil {γ ε δ : Type} (ctx : γ)
    (ri : ResourceInterface γ ε) (conf : ArtifactoryArtifact) :
    ¬((constructArtifactory (δ := δ) ctx ri conf).driver = none ∧
      (constructArtifactory (δ := δ) ctx ri conf).err = none) := by
  rcases h1 : ri ctx conf.UsernameSecret.Name conf.UsernameSecret.Key with ⟨v1, e1⟩
  cases e1 with
  | some e => rw [constructArtifactory_username_err ctx ri conf v1 e h1]; simp
  | none =>
    rcases h2 : ri ctx conf.PasswordSecret.Name conf.PasswordSecret.Key with ⟨v2, e2⟩
    cases e2 with
    | some e => rw [constructArtifactory_password_err ctx ri conf v1 v2 e h1 h2]; simp
    | none => rw [constructArtifactory_ok ctx ri conf v1 v2 h1 h2]; simp

theorem constructGCS_not_nil_nil {γ ε δ : Type} (ctx : γ) (ri : ResourceInterface γ ε)
    (conf : GCSArtifact) :
    ¬((constructGCS (δ := δ) ctx ri conf).driver = none ∧
      (constructGCS (δ := δ) ctx ri conf).err = none) := by
  by_cases hn : conf.ServiceAccountKeySecret.Name = ""
  · rw [constructGCS_name_empty ctx ri conf hn]; simp
  · rcases h1 : ri ctx conf.ServiceAccountKeySecret.Name conf.ServiceAccountKeySecret.Key with ⟨v1, e1⟩
    cases e1 with
    | some e => rw [constructGCS_err ctx ri conf v1 e hn h1]; simp
    | none => rw [constructGCS_ok ctx ri conf v1 hn h1]; simp

theorem gitResolveOpt_inr {γ ε δ : Type} (ctx : γ) (ri : ResourceInterface γ ε)
    (sel : Option SecretKeySelector) (prior : List SecretCall) (r : FactoryResult ε δ)
    (h : gitResolveOpt (δ := δ) ctx ri sel prior = Sum.inr r) :
    r.driver = none ∧ r.err ≠ none := by
  cases sel with
  | none => rw [gitResolveOpt_none] at h; cases h
  | some s =>
    rcases h1 : ri ctx s.Name s.Key with ⟨v, e⟩
    cases e with
    | some e =>
      rw [gitResolveOpt_err ctx ri s prior v e h1] at h
      cases h
      simp
    | none =>
      rw [gitResolveOpt_ok ctx ri s prior v h1] at h
      cases h

theorem bindStep_not_nil_nil {ε δ : Type}
    (x : (String × List SecretCall) ⊕ FactoryResult ε δ)
    (f : String → List SecretCall → FactoryResult ε δ)
    (hx : ∀ r, x = Sum.inr r → r.driver = none ∧ r.err ≠ none)
    (hf : ∀ v cs, ¬((f v cs).driver = none ∧ (f v cs).err = none)) :
    ¬((bindStep x f).driver = none ∧ (bindStep x f).err = none) := by
  cases x with
  | inl p =>
    rcases p with ⟨v, cs⟩
    rw [bindStep_inl]
    exact hf v cs
  | inr r =>
    rw [bindStep_inr]
    obtain ⟨-, hne⟩ := hx r rfl
    exact fun hc => hne hc.2

theorem constructGit_not_nil_nil {γ ε δ : Type} (ctx : γ) (ri : ResourceInterface γ ε)
    (conf : GitArtifact) :
    ¬((constructGit (δ := δ) ctx ri conf).driver = none ∧
      (constructGit (δ := δ) ctx ri conf).err = none) := by
  unfold constructGit
  apply bindStep_not_nil_nil
  · exact fun r h => gitResolveOpt_inr ctx ri conf.UsernameSecret [] r h
  · intro username cs1
    apply bindStep_not_nil_nil
    · exact fun r h => gitResolveOpt_inr ctx ri conf.PasswordSecret cs1 r h
    · intro password cs2
      apply bindStep_not_nil_nil
      · exact fun r h => gitResolveOpt_inr ctx ri conf.SSHPrivateKeySecret cs2 r h
      · intro sshPrivateKey cs3
        simp

/-! ## C2 -/

/-- C2: for every descriptor in which no backend variant is populated,
`NewDriver` returns a nil driver together with the single sentinel error
`ErrUnsupportedDriver` (and no resolver calls); and — provided the external
HDFS constructor never does so — `NewDriver` never returns a nil error
together with a nil driver. -/
theorem newDriver_unsupported_sentinel {γ ε δ η : Type} (ctx : γ) (art : Artifact η)
    (ri : ResourceInterface γ ε)
    (hdfsCreateDriver : γ → ResourceInterface γ ε → η → FactoryResult ε δ) :
    (art.S3 = none → art.HTTP = none → art.Git = none → art.Artifactory = none →
      art.HDFS = none → art.Raw = none → art.OSS = none → art.GCS = none →
      NewDriver ctx art ri hdfsCreateDriver = ⟨none, some ErrUnsupportedDriver, []⟩) ∧
    ((∀ conf, art.HDFS = some conf →
        ¬((hdfsCreateDriver ctx ri conf).driver = none ∧
          (hdfsCreateDriver ctx ri conf).err = none)) →
      ¬((NewDriver ctx art ri hdfsCreateDriver).driver = none ∧
        (NewDriver ctx art ri hdfsCreateDriver).err = none)) := by
  constructor
  · intro h1 h2 h3 h4 h5 h6 h7 h8
    exact newDriver_no_variant ctx art ri hdfsCreateDriver h1 h2 h3 h4 h5 h6 h7 h8
  · intro hH
    cases h1 : art.S3 with
    | some conf =>
      rw [newDriver_s3_branch ctx art ri hdfsCreateDriver conf h1]
      exact constructS3_not_nil_nil ctx ri conf
    | none =>
    cases h2 : art.HTTP with
    | some conf =>
      rw [newDriver_http_branch ctx art ri hdfsCreateDriver conf h1 h2]; simp
    | none =>
    cases h3 : art.Git with
    | some conf =>
      rw [newDriver_git_branch ctx art ri hdfsCreateDriver conf h1 h2 h3]
      exact constructGit_not_nil_nil ctx ri conf
    | none =>
    cases h4 : art.Artifactory with
    | some conf =>
      rw [newDriver_artifactory_branch ctx art ri hdfsCreateDriver conf h1 h2 h3 h4]
      exact constructArtifactory_not_nil_nil ctx ri conf
    | none =>
    cases h5 : art.HDFS with
    | some conf =>
      rw [newDriver_hdfs_branch ctx art ri hdfsCreateDriver conf h1 h2 h3 h4 h5]
      exact hH conf h5
    | none =>
    cases h6 : art.Raw with
    | some conf =>
      rw [newDriver_raw_branch ctx art ri hdfsCreateDriver conf h1 h2 h3 h4 h5 h6]; simp
    | none =>
    cases h7 : art.OSS with
    | some conf =>
      rw [newDriver_oss_branch ctx art ri hdfsCreateDriver conf h1 h2 h3 h4 h5 h6 h7]
      exact constructOSS_not_nil_nil ctx ri conf
    | none =>
    cases h8 : art.GCS with
    | some conf =>
      rw [newDriver_gcs_branch ctx art ri hdfsCreateDriver conf h1 h2 h3 h4 h5 h6 h7 h8]
      exact constructGCS_not_nil_nil ctx ri conf
    | none =>
      rw [newDriver_no_variant ctx art ri hdfsCreateDriver h1 h2 h3 h4 h5 h6 h7 h8]; simp

/-- C2 witness: the empty descriptor yields `(nil, ErrUnsupportedDriver)` and
not nil-nil. -/
theorem newDriver_unsupported_sentinel_witness :
    (NewDriver () (emptyArtifact (η := Unit)) okResolver hdfsStub =
      ⟨none, some ErrUnsupportedDriver, []⟩) ∧
    ¬((NewDriver () (emptyArtifact (η := Unit)) okResolver hdfsStub).driver = none ∧
      (NewDriver () (emptyArtifact (η := Unit)) okResolver hdfsStub).err = none) :=
  ⟨(newDriver_unsupported_sentinel () emptyArtifact okResolver hdfsStub).1
      rfl rfl rfl rfl rfl rfl rfl rfl,
   (newDriver_unsupported_sentinel () emptyArtifact okResolver hdfsStub).2
      (fun _ h => Option.noConfusion h)⟩

/-! ## C3 -/

/-- C3: for a descriptor whose S3 variant has an empty access-key secret
name, `NewDriver` performs no resolver call (empty trace, resolver-free
result), leaves both credential fields empty, carries `Endpoint`, `Region`,
`RoleARN` and `UseSDKCreds` verbatim, and sets `Secure` to true iff
`Insecure` is nil or false. -/
theorem newDriver_s3_skip_resolution {γ ε δ η : Type} (ctx : γ) (art : Artifact η)
    (ri : ResourceInterface γ ε)
    (hdfsCreateDriver : γ → ResourceInterface γ ε → η → FactoryResult ε δ)
    (conf : S3Artifact) (hS3 : art.S3 = some conf)
    (hname : conf.AccessKeySecret.Name = "") :
    ∃ secure : Bool,
      NewDriver ctx art ri hdfsCreateDriver =
        ⟨some (ArtifactDriver.s3
          { Endpoint := conf.Endpoint
            AccessKey := ""
            SecretKey := ""
            Secure := secure
            Region := conf.Region
            RoleARN := conf.RoleARN
            UseSDKCreds := conf.UseSDKCreds }), none, []⟩ ∧
      (secure = true ↔ (conf.Insecure = none ∨ conf.Insecure = some false)) := by
  refine ⟨(match conf.Insecure with
    | none => true
    | some insecure => !insecure), ?_, ?_⟩
  · rw [newDriver_s3_branch ctx art ri hdfsCreateDriver conf hS3,
        constructS3_name_empty ctx ri conf hname]
  · cases conf.Insecure with
    | none => simp
    | some b => cases b <;> simp

/-- C3 witness: the spec's scenario `{ObjectStore: {Endpoint: "store.example",
AccessKeySecret.Name: ""}}` yields a driver with empty credentials and
`Secure = true`. -/
theorem newDriver_s3_skip_resolution_witness :
    ∃ secure : Bool,
      NewDriver () artS3EmptyAccess okResolver hdfsStub =
        ⟨some (ArtifactDriver.s3
          { Endpoint := s3ConfEmptyAccess.Endpoint
            AccessKey := ""
            SecretKey := ""
            Secure := secure
            Region := s3ConfEmptyAccess.Region
            RoleARN := s3ConfEmptyAccess.RoleARN
            UseSDKCreds := s3ConfEmptyAccess.UseSDKCreds }), none, []⟩ ∧
      (secure = true ↔
        (s3ConfEmptyAccess.Insecure = none ∨ s3ConfEmptyAccess.Insecure = some false)) :=
  newDriver_s3_skip_resolution () artS3EmptyAccess okResolver hdfsStub
    s3ConfEmptyAccess rfl rfl

/-! ## Agreement lemmas: each branch depends on the resolver only through the
calls it records -/

theorem constructS3_agree {γ ε δ : Type} (ctx : γ) (ri1 ri2 : ResourceInterface γ ε)
    (conf : S3Artifact)
    (h : ∀ c ∈ (constructS3 (δ := δ) ctx ri1 conf).calls,
      ri1 ctx c.name c.key = ri2 ctx c.name c.key) :
    constructS3 (δ := δ) ctx ri1 conf = constructS3 (δ := δ) ctx ri2 conf := by
  by_cases hn : conf.AccessKeySecret.Name = ""
  · rw [constructS3_name_empty ctx ri1 conf hn, constructS3_name_empty ctx ri2 conf hn]
  · rcases h1 : ri1 ctx conf.AccessKeySecret.Name conf.AccessKeySecret.Key with ⟨v1, e1⟩
    cases e1 with
    | some e =>
      have hacc := h ⟨conf.AccessKeySecret.Name, conf.AccessKeySecret.Key⟩
        (by rw [constructS3_access_err ctx ri1 conf v1 e hn h1]; simp)
      rw [constructS3_access_err ctx ri1 conf v1 e hn h1,
          constructS3_access_err ctx ri2 conf v1 e hn (hacc.symm.trans h1)]
    | none =>
      rcases h2 : ri1 ctx conf.SecretKeySecret.Name conf.SecretKeySecret.Key with ⟨v2, e2⟩
      cases e2 with
      | some e =>
        have hacc := h ⟨conf.AccessKeySecret.Name, conf.AccessKeySecret.Key⟩
          (by rw [constructS3_secret_err ctx ri1 conf v1 v2 e hn h1 h2]; simp)
        have hsec := h ⟨conf.SecretKeySecret.Name, conf.SecretKeySecret.Key⟩
          (by rw [constructS3_secret_err ctx ri1 conf v1 v2 e hn h1 h2]; simp)
        rw [constructS3_secret_err ctx ri1 conf v1 v2 e hn h1 h2,
            constructS3_secret_err ctx ri2 conf v1 v2 e hn (hacc.symm.trans h1)
              (hsec.symm.trans h2)]
      | none =>
        have hacc := h ⟨conf.AccessKeySecret.Name, conf.AccessKeySecret.Key⟩
          (by rw [constructS3_ok ctx ri1 conf v1 v2 hn h1 h2]; simp)
        have hsec := h ⟨conf.SecretKeySecret.Name, conf.SecretKeySecret.Key⟩
          (by rw [constructS3_ok ctx ri1 conf v1 v2 hn h1 h2]; simp)
        rw [constructS3_ok ctx ri1 conf v1 v2 hn h1 h2,
            constructS3_ok ctx ri2 conf v1 v2 hn (hacc.symm.trans h1) (hsec.symm.trans h2)]

theorem constructOSS_agree {γ ε δ : Type} (ctx : γ) (ri1 ri2 : ResourceInterface γ ε)
    (conf : OSSArtifact)
    (h : ∀ c ∈ (constructOSS (δ := δ) ctx ri1 conf).calls,
      ri1 ctx c.name c.key = ri2 ctx c.name c.key) :
    constructOSS (δ := δ) ctx ri1 conf = constructOSS (δ := δ) ctx ri2 conf := by
  by_cases hn : conf.AccessKeySecret.Name = ""
  · rw [constructOSS_name_empty ctx ri1 conf hn, constructOSS_name_empty ctx ri2 conf hn]
  · rcases h1 : ri1 ctx conf.AccessKeySecret.Name conf.AccessKeySecret.Key with ⟨v1, e1⟩
    cases e1 with
    | some e =>
      have hacc := h ⟨conf.AccessKeySecret.Name, conf.AccessKeySecret.Key⟩
        (by rw [constructOSS_access_err ctx ri1 conf v1 e hn h1]; simp)
      rw [constructOSS_access_err ctx ri1 conf v1 e hn h1,
          constructOSS_access_err ctx ri2 conf v1 e hn (hacc.symm.trans h1)]
    | none =>
      rcases h2 : ri1 ctx conf.SecretKeySecret.Name conf.SecretKeySecret.Key with ⟨v2, e2⟩
      cases e2 with
      | some e =>
        have hacc := h ⟨conf.AccessKeySecret.Name, conf.AccessKeySecret.Key⟩
          (by rw [constructOSS_secret_err ctx ri1 conf v1 v2 e hn h1 h2]; simp)
        have hsec := h ⟨conf.SecretKeySecret.Name, conf.SecretKeySecret.Key⟩
          (by rw [constructOSS_secret_err ctx ri1 conf v1 v2 e hn h1 h2]; simp)
        rw [constructOSS_secret_err ctx ri1 conf v1 v2 e hn h1 h2,
            constructOSS_secret_err ctx ri2 conf v1 v2 e hn (hacc.symm.trans h1)
              (hsec.symm.trans h2)]
      | none =>
        have hacc := h ⟨conf.AccessKeySecret.Name, conf.AccessKeySecret.Key⟩
          (by rw [constructOSS_ok ctx ri1 conf v1 v2 hn h1 h2]; simp)
        have hsec := h ⟨conf.SecretKeySecret.Name, conf.SecretKeySecret.Key⟩
          (by rw [constructOSS_ok ctx ri1 conf v1 v2 hn h1 h2]; simp)
        rw [constructOSS_ok ctx ri1 conf v1 v2 hn h1 h2,
            constructOSS_ok ctx ri2 conf v1 v2 hn (hacc.symm.trans h1) (hsec.symm.trans h2)]

theorem constructArtifactory_agree {γ ε δ : Type} (ctx : γ)
    (ri1 ri2 : ResourceInterface γ ε) (conf : ArtifactoryArtifact)
    (h : ∀ c ∈ (constructArtifactory (δ := δ) ctx ri1 conf).calls,
      ri1 ctx c.name c.key = ri2 ctx c.name c.key) :
    constructArtifactory (δ := δ) ctx ri1 conf =
      constructArtifactory (δ := δ) ctx ri2 conf := by
  rcases h1 : ri1 ctx conf.UsernameSecret.Name conf.UsernameSecret.Key with ⟨v1, e1⟩
  cases e1 with
  | some e =>
    have hu := h ⟨conf.UsernameSecret.Name, conf.UsernameSecret.Key⟩
      (by rw [constructArtifactory_username_err ctx ri1 conf v1 e h1]; simp)
    rw [constructArtifactory_username_err ctx ri1 conf v1 e h1,
        constructArtifactory_username_err ctx ri2 conf v1 e (hu.symm.trans h1)]
  | none =>
    rcases h2 : ri1 ctx conf.PasswordSecret.Name conf.PasswordSecret.Key with ⟨v2, e2⟩
    cases e2 with
    | some e =>
      have hu := h ⟨conf.UsernameSecret.Name, conf.UsernameSecret.Key⟩
        (by rw [constructArtifactory_password_err ctx ri1 conf v1 v2 e h1 h2]; simp)
      have hp := h ⟨conf.PasswordSecret.Name, conf.PasswordSecret.Key⟩
        (by rw [constructArtifactory_password_err ctx ri1 conf v1 v2 e h1 h2]; simp)
      rw [constructArtifactory_password_err ctx ri1 conf v1 v2 e h1 h2,
          constructArtifactory_password_err ctx ri2 conf v1 v2 e (hu.symm.trans h1)
            (hp.symm.trans h2)]
    | none =>
      have hu := h ⟨conf.UsernameSecret.Name, conf.UsernameSecret.Key⟩
        (by rw [constructArtifactory_ok ctx ri1 conf v1 v2 h1 h2]; simp)
      have hp := h ⟨conf.PasswordSecret.Name, conf.PasswordSecret.Key⟩
        (by rw [constructArtifactory_ok ctx ri1 conf v1 v2 h1 h2]; simp)
      rw [constructArtifactory_ok ctx ri1 conf v1 v2 h1 h2,
          constructArtifactory_ok ctx ri2 conf v1 v2 (hu.symm.trans h1) (hp.symm.trans h2)]

theorem constructGCS_agree {γ ε δ : Type} (ctx : γ) (ri1 ri2 : ResourceInterface γ ε)
    (conf : GCSArtifact)
    (h : ∀ c ∈ (constructGCS (δ := δ) ctx ri1 conf).calls,
      ri1 ctx c.name c.key = ri2 ctx c.name c.key) :
    constructGCS (δ := δ) ctx ri1 conf = constructGCS (δ := δ) ctx ri2 conf := by
  by_cases hn : conf.ServiceAccountKeySecret.Name = ""
  · rw [constructGCS_name_empty ctx ri1 conf hn, constructGCS_name_empty ctx ri2 conf hn]
  · rcases h1 : ri1 ctx conf.ServiceAccountKeySecret.Name conf.ServiceAccountKeySecret.Key
      with ⟨v1, e1⟩
    cases e1 with
    | some e =>
      have hk := h ⟨conf.ServiceAccountKeySecret.Name, conf.ServiceAccountKeySecret.Key⟩
        (by rw [constructGCS_err ctx ri1 conf v1 e hn h1]; simp)
      rw [constructGCS_err ctx ri1 conf v1 e hn h1,
          constructGCS_err ctx ri2 conf v1 e hn (hk.symm.trans h1)]
    | none =>
      have hk := h ⟨conf.ServiceAccountKeySecret.Name, conf.ServiceAccountKeySecret.Key⟩
        (by rw [constructGCS_ok ctx ri1 conf v1 hn h1]; simp)
      rw [constructGCS_ok ctx ri1 conf v1 hn h1,
          constructGCS_ok ctx ri2 conf v1 hn (hk.symm.trans h1)]

/-! ## C4 -/

/-- C4: for a descriptor whose S3 (or OSS, when it is the active variant)
config has a non-empty access-key secret name, the access key is resolved
first and the secret key second; either failure is returned verbatim with a
nil driver (no partial driver), and on an access-key failure the secret key
is never requested (single-call trace). -/
theorem newDriver_resolution_failure_aborts {γ ε δ η : Type} (ctx : γ)
    (art : Artifact η) (ri : ResourceInterface γ ε)
    (hdfsCreateDriver : γ → ResourceInterface γ ε → η → FactoryResult ε δ) :
    (∀ conf : S3Artifact, art.S3 = some conf → conf.AccessKeySecret.Name ≠ "" →
      (∀ v e, ri ctx conf.AccessKeySecret.Name conf.AccessKeySecret.Key = (v, some e) →
        NewDriver ctx art ri hdfsCreateDriver =
          ⟨none, some e, [⟨conf.AccessKeySecret.Name, conf.AccessKeySecret.Key⟩]⟩) ∧
      (∀ v1 v2 e, ri ctx conf.AccessKeySecret.Name conf.AccessKeySecret.Key = (v1, none) →
        ri ctx conf.SecretKeySecret.Name conf.SecretKeySecret.Key = (v2, some e) →
        NewDriver ctx art ri hdfsCreateDriver =
          ⟨none, some e,
           [⟨conf.AccessKeySecret.Name, conf.AccessKeySecret.Key⟩,
            ⟨conf.SecretKeySecret.Name, conf.SecretKeySecret.Key⟩]⟩)) ∧
    (∀ conf : OSSArtifact, art.S3 = none → art.HTTP = none → art.Git = none →
      art.Artifactory = none → art.HDFS = none → art.Raw = none →
      art.OSS = some conf → conf.AccessKeySecret.Name ≠ "" →
      (∀ v e, ri ctx conf.AccessKeySecret.Name conf.AccessKeySecret.Key = (v, some e) →
        NewDriver ctx art ri hdfsCreateDriver =
          ⟨none, some e, [⟨conf.AccessKeySecret.Name, conf.AccessKeySecret.Key⟩]⟩) ∧
      (∀ v1 v2 e, ri ctx conf.AccessKeySecret.Name conf.AccessKeySecret.Key = (v1, none) →
        ri ctx conf.SecretKeySecret.Name conf.SecretKeySecret.Key = (v2, some e) →
        NewDriver ctx art ri hdfsCreateDriver =
          ⟨none, some e,
           [⟨conf.AccessKeySecret.Name, conf.AccessKeySecret.Key⟩,
            ⟨conf.SecretKeySecret.Name, conf.SecretKeySecret.Key⟩]⟩)) := by
  constructor
  · intro conf hS3 hn
    rw [newDriver_s3_branch ctx art ri hdfsCreateDriver conf hS3]
    constructor
    · intro v e hr
      exact constructS3_access_err ctx ri conf v e hn hr
    · intro v1 v2 e h1 h2
      exact constructS3_secret_err ctx ri conf v1 v2 e hn h1 h2
  · intro conf h1 h2 h3 h4 h5 h6 h7 hn
    rw [newDriver_oss_branch ctx art ri hdfsCreateDriver conf h1 h2 h3 h4 h5 h6 h7]
    constructor
    · intro v e hr
      exact constructOSS_access_err ctx ri conf v e hn hr
    · intro v1 v2 e hr1 hr2
      exact constructOSS_secret_err ctx ri conf v1 v2 e hn hr1 hr2

/-- C4 witness: with an always-failing resolver and a populated access-key
name, construction aborts with the resolver's error after one call. -/
theorem newDriver_resolution_failure_aborts_witness :
    NewDriver () artS3WithKeys failResolver hdfsStub =
      ⟨none, some (GoErr.other "secret store unavailable"), [⟨"ak", "k1"⟩]⟩ :=
  ((newDriver_resolution_failure_aborts () artS3WithKeys failResolver hdfsStub).1
      s3ConfWithKeys rfl (by decide)).1 "" (GoErr.other "secret store unavailable") rfl

/-! ## C5 -/

theorem gitResolveOpt_all_ok {γ ε δ : Type} (ctx : γ) (ri : ResourceInterface γ ε)
    (hok : ∀ n k, (ri ctx n k).2 = none)
    (sel : Option SecretKeySelector) (prior : List SecretCall) :
    gitResolveOpt (δ := δ) ctx ri sel prior =
      Sum.inl (resolvedCredential ctx ri sel, prior ++ credentialCalls sel) := by
  cases sel with
  | none => simp [gitResolveOpt_none, resolvedCredential, credentialCalls]
  | some s =>
    rcases hr : ri ctx s.Name s.Key with ⟨v, e⟩
    have he := hok s.Name s.Key
    rw [hr] at he
    simp only at he
    subst he
    rw [gitResolveOpt_ok ctx ri s prior v hr]
    simp [resolvedCredential, credentialCalls, hr]

/-- C5: for a descriptor whose Git variant is active and a resolver that
succeeds on every request, each of the three credential kinds (username,
password, SSH private key) is resolved — and its call recorded — if and only
if its own secret reference is non-nil; absent references leave their fields
empty, and `InsecureIgnoreHostKey` is carried verbatim. -/
theorem newDriver_git_optional_credentials {γ ε δ η : Type} (ctx : γ)
    (art : Artifact η) (ri : ResourceInterface γ ε)
    (hdfsCreateDriver : γ → ResourceInterface γ ε → η → FactoryResult ε δ)
    (conf : GitArtifact) (h1 : art.S3 = none) (h2 : art.HTTP = none)
    (h3 : art.Git = some conf) (hok : ∀ n k, (ri ctx n k).2 = none) :
    NewDriver ctx art ri hdfsCreateDriver =
      ⟨some (ArtifactDriver.git
        { InsecureIgnoreHostKey := conf.InsecureIgnoreHostKey
          Username := resolvedCredential ctx ri conf.UsernameSecret
          Password := resolvedCredential ctx ri conf.PasswordSecret
          SSHPrivateKey := resolvedCredential ctx ri conf.SSHPrivateKeySecret }), none,
       credentialCalls conf.UsernameSecret ++ credentialCalls conf.PasswordSecret ++
         credentialCalls conf.SSHPrivateKeySecret⟩ := by
  rw [newDriver_git_branch ctx art ri hdfsCreateDriver conf h1 h2 h3]
  unfold constructGit
  simp [gitResolveOpt_all_ok ctx ri hok, bindStep_inl, List.append_assoc]

/-- C5 witness: the spec's scenario — only the SSH key reference set, the
resolver returning `PRIVATEKEY` — yields a driver with empty username and
password and a populated key, after exactly one call. -/
theorem newDriver_git_optional_credentials_witness :
    NewDriver () artGitSSHOnly okResolver hdfsStub =
      ⟨some (ArtifactDriver.git
        { InsecureIgnoreHostKey := false
          Username := ""
          Password := ""
          SSHPrivateKey := "PRIVATEKEY" }), none, [⟨"k", "id_rsa"⟩]⟩ :=
  newDriver_git_optional_credentials () artGitSSHOnly okResolver hdfsStub
    gitConfSSHOnly rfl rfl rfl (fun _ _ => rfl)

/-! ## C6 -/

/-- C6: for a descriptor whose Artifactory variant is active, `NewDriver`
always attempts both resolutions — username first, then password — with no
empty-name or nil-reference guard (the recorded first call is the username
reference whatever its content); either failure aborts with that error and a
nil driver. -/
theorem newDriver_artifactory_always_resolves {γ ε δ η : Type} (ctx : γ)
    (art : Artifact η) (ri : ResourceInterface γ ε)
    (hdfsCreateDriver : γ → ResourceInterface γ ε → η → FactoryResult ε δ)
    (conf : ArtifactoryArtifact) (h1 : art.S3 = none) (h2 : art.HTTP = none)
    (h3 : art.Git = none) (h4 : art.Artifactory = some conf) :
    ((NewDriver ctx art ri hdfsCreateDriver).calls.take 1 =
      [⟨conf.UsernameSecret.Name, conf.UsernameSecret.Key⟩]) ∧
    (∀ v e, ri ctx conf.UsernameSecret.Name conf.UsernameSecret.Key = (v, some e) →
      NewDriver ctx art ri hdfsCreateDriver =
        ⟨none, some e, [⟨conf.UsernameSecret.Name, conf.UsernameSecret.Key⟩]⟩) ∧
    (∀ v, ri ctx conf.UsernameSecret.Name conf.UsernameSecret.Key = (v, none) →
      (NewDriver ctx art ri hdfsCreateDriver).calls =
        [⟨conf.UsernameSecret.Name, conf.UsernameSecret.Key⟩,
         ⟨conf.PasswordSecret.Name, conf.PasswordSecret.Key⟩]) ∧
    (∀ v1 v2 e, ri ctx conf.UsernameSecret.Name conf.UsernameSecret.Key = (v1, none) →
      ri ctx conf.PasswordSecret.Name conf.PasswordSecret.Key = (v2, some e) →
      NewDriver ctx art ri hdfsCreateDriver =
        ⟨none, some e,
         [⟨conf.UsernameSecret.Name, conf.UsernameSecret.Key⟩,
          ⟨conf.PasswordSecret.Name, conf.PasswordSecret.Key⟩]⟩) ∧
    (∀ v1 v2, ri ctx conf.UsernameSecret.Name conf.UsernameSecret.Key = (v1, none) →
      ri ctx conf.PasswordSecret.Name conf.PasswordSecret.Key = (v2, none) →
      NewDriver ctx art ri hdfsCreateDriver =
        ⟨some (ArtifactDriver.artifactory { Username := v1, Password := v2 }), none,
         [⟨conf.UsernameSecret.Name, conf.UsernameSecret.Key⟩,
          ⟨conf.PasswordSecret.Name, conf.PasswordSecret.Key⟩]⟩) := by
  rw [newDriver_artifactory_branch ctx art ri hdfsCreateDriver conf h1 h2 h3 h4]
  refine ⟨?_, ?_, ?_, ?_, ?_⟩
  · rcases hr1 : ri ctx conf.UsernameSecret.Name conf.UsernameSecret.Key with ⟨v1, e1⟩
    cases e1 with
    | some e => rw [constructArtifactory_username_err ctx ri conf v1 e hr1]; rfl
    | none =>
      rcases hr2 : ri ctx conf.PasswordSecret.Name conf.PasswordSecret.Key with ⟨v2, e2⟩
      cases e2 with
      | some e => rw [constructArtifactory_password_err ctx ri conf v1 v2 e hr1 hr2]; rfl
      | none => rw [constructArtifactory_ok ctx ri conf v1 v2 hr1 hr2]; rfl
  · intro v e hr
    exact constructArtifactory_username_err ctx ri conf v e hr
  · intro v hr1
    rcases hr2 : ri ctx conf.PasswordSecret.Name conf.PasswordSecret.Key with ⟨v2, e2⟩
    cases e2 with
    | some e => rw [constructArtifactory_password_err ctx ri conf v v2 e hr1 hr2]
    | none => rw [constructArtifactory_ok ctx ri conf v v2 hr1 hr2]
  · intro v1 v2 e hr1 hr2
    exact constructArtifactory_password_err ctx ri conf v1 v2 e hr1 hr2
  · intro v1 v2 hr1 hr2
    exact constructArtifactory_ok ctx ri conf v1 v2 hr1 hr2

/-- C6 witness: even with both references absent (empty name and key), both
resolutions are attempted — the empty references are passed through to the
resolver — and the resolved pair populates the driver. -/
theorem newDriver_artifactory_always_resolves_witness :
    ((NewDriver () artArtifactoryEmpty okResolver hdfsStub).calls.take 1 = [⟨"", ""⟩]) ∧
    NewDriver () artArtifactoryEmpty okResolver hdfsStub =
      ⟨some (ArtifactDriver.artifactory
        { Username := "PRIVATEKEY", Password := "PRIVATEKEY" }), none,
       [⟨"", ""⟩, ⟨"", ""⟩]⟩ :=
  ⟨(newDriver_artifactory_always_resolves () artArtifactoryEmpty okResolver hdfsStub
      artifactoryConfEmpty rfl rfl rfl rfl).1,
   (newDriver_artifactory_always_resolves () artArtifactoryEmpty okResolver hdfsStub
      artifactoryConfEmpty rfl rfl rfl rfl).2.2.2.2 "PRIVATEKEY" "PRIVATEKEY" rfl rfl⟩

/-! ## C7 -/

/-- C7: for a descriptor whose GCS variant is active, the service-account-key
secret is resolved iff its reference name is non-empty: with an empty name no
call is made and the key stays empty; with a non-empty name the resolved
plaintext is attached, and a failure returns that error with a nil driver. -/
theorem newDriver_gcs_optional_key {γ ε δ η : Type} (ctx : γ) (art : Artifact η)
    (ri : ResourceInterface γ ε)
    (hdfsCreateDriver : γ → ResourceInterface γ ε → η → FactoryResult ε δ)
    (conf : GCSArtifact) (h1 : art.S3 = none) (h2 : art.HTTP = none)
    (h3 : art.Git = none) (h4 : art.Artifactory = none) (h5 : art.HDFS = none)
    (h6 : art.Raw = none) (h7 : art.OSS = none) (h8 : art.GCS = some conf) :
    (conf.ServiceAccountKeySecret.Name = "" →
      NewDriver ctx art ri hdfsCreateDriver =
        ⟨some (ArtifactDriver.gcs { ServiceAccountKey := "" }), none, []⟩) ∧
    (conf.ServiceAccountKeySecret.Name ≠ "" →
      (∀ v, ri ctx conf.ServiceAccountKeySecret.Name conf.ServiceAccountKeySecret.Key =
          (v, none) →
        NewDriver ctx art ri hdfsCreateDriver =
          ⟨some (ArtifactDriver.gcs { ServiceAccountKey := v }), none,
           [⟨conf.ServiceAccountKeySecret.Name, conf.ServiceAccountKeySecret.Key⟩]⟩) ∧
      (∀ v e, ri ctx conf.ServiceAccountKeySecret.Name conf.ServiceAccountKeySecret.Key =
          (v, some e) →
        NewDriver ctx art ri hdfsCreateDriver =
          ⟨none, some e,
           [⟨conf.ServiceAccountKeySecret.Name, conf.ServiceAccountKeySecret.Key⟩]⟩)) := by
  rw [newDriver_gcs_branch ctx art ri hdfsCreateDriver conf h1 h2 h3 h4 h5 h6 h7 h8]
  refine ⟨?_, ?_⟩
  · intro hname
    exact constructGCS_name_empty ctx ri conf hname
  · intro hn
    refine ⟨?_, ?_⟩
    · intro v hr
      exact constructGCS_ok ctx ri conf v hn hr
    · intro v e hr
      exact constructGCS_err ctx ri conf v e hn hr

/-- C7 witness: a non-empty service-account-key reference is resolved and the
plaintext attached, after exactly one call. -/
theorem newDriver_gcs_optional_key_witness :
    NewDriver () artGCSWithKey okResolver hdfsStub =
      ⟨some (ArtifactDriver.gcs { ServiceAccountKey := "PRIVATEKEY" }), none,
       [⟨"sa", "key.json"⟩]⟩ :=
  ((newDriver_gcs_optional_key () artGCSWithKey okResolver hdfsStub gcsConfWithKey
      rfl rfl rfl rfl rfl rfl rfl rfl).2 (by decide)).1 "PRIVATEKEY" rfl

/-! ## C8 -/

/-- C8: for a descriptor whose HDFS variant is active (S3, HTTP, Git and
Artifactory absent), `NewDriver` returns exactly the result of the external
constructor `hdfs.CreateDriver` applied to the same context, resolver and
HDFS sub-config, with no post-processing. -/
theorem newDriver_hdfs_delegates {γ ε δ η : Type} (ctx : γ) (art : Artifact η)
    (ri : ResourceInterface γ ε)
    (hdfsCreateDriver : γ → ResourceInterface γ ε → η → FactoryResult ε δ)
    (conf : η) (h1 : art.S3 = none) (h2 : art.HTTP = none) (h3 : art.Git = none)
    (h4 : art.Artifactory = none) (h5 : art.HDFS = some conf) :
    NewDriver ctx art ri hdfsCreateDriver = hdfsCreateDriver ctx ri conf :=
  newDriver_hdfs_branch ctx art ri hdfsCreateDriver conf h1 h2 h3 h4 h5

/-- C8 witness: the factory's result on an HDFS descriptor is the external
constructor's result, unchanged. -/
theorem newDriver_hdfs_delegates_witness :
    NewDriver () artHDFSOnly okResolver hdfsStub = hdfsStub () okResolver () :=
  newDriver_hdfs_delegates () artHDFSOnly okResolver hdfsStub () rfl rfl rfl rfl rfl

theorem constructGit_eq_steps {γ ε δ : Type} (ctx : γ) (ri : ResourceInterface γ ε)
    (conf : GitArtifact) :
    constructGit (δ := δ) ctx ri conf =
      bindStep (gitResolveOpt (δ := δ) ctx ri conf.UsernameSecret [])
        (fun username cs1 => gitStep2 ctx ri conf.InsecureIgnoreHostKey username
          conf.PasswordSecret conf.SSHPrivateKeySecret cs1) := rfl

theorem gitStep3_calls_mono {γ ε δ : Type} (ctx : γ) (ri : ResourceInterface γ ε)
    (ihk : Bool) (username password : String) (selS : Option SecretKeySelector)
    (cs2 : List SecretCall) (c : SecretCall) (hc : c ∈ cs2) :
    c ∈ (gitStep3 (δ := δ) ctx ri ihk username password selS cs2).calls := by
  cases selS with
  | none => simpa [gitStep3, gitResolveOpt_none, bindStep_inl] using hc
  | some s =>
    rcases hr : ri ctx s.Name s.Key with ⟨v, e⟩
    cases e with
    | some e =>
      simp only [gitStep3, gitResolveOpt_err ctx ri s cs2 v e hr, bindStep_inr]
      exact List.mem_append_left _ hc
    | none =>
      simp only [gitStep3, gitResolveOpt_ok ctx ri s cs2 v hr, bindStep_inl]
      exact List.mem_append_left _ hc

theorem gitStep2_calls_mono {γ ε δ : Type} (ctx : γ) (ri : ResourceInterface γ ε)
    (ihk : Bool) (username : String) (selP selS : Option SecretKeySelector)
    (cs1 : List SecretCall) (c : SecretCall) (hc : c ∈ cs1) :
    c ∈ (gitStep2 (δ := δ) ctx ri ihk username selP selS cs1).calls := by
  cases selP with
  | none =>
    simp only [gitStep2, gitResolveOpt_none, bindStep_inl]
    exact gitStep3_calls_mono ctx ri ihk username "" selS cs1 c hc
  | some s =>
    rcases hr : ri ctx s.Name s.Key with ⟨v, e⟩
    cases e with
    | some e =>
      simp only [gitStep2, gitResolveOpt_err ctx ri s cs1 v e hr, bindStep_inr]
      exact List.mem_append_left _ hc
    | none =>
      simp only [gitStep2, gitResolveOpt_ok ctx ri s cs1 v hr, bindStep_inl]
      exact gitStep3_calls_mono ctx ri ihk username v selS (cs1 ++ [⟨s.Name, s.Key⟩]) c
        (List.mem_append_left _ hc)

theorem gitStep3_agree {γ ε δ : Type} (ctx : γ) (ri1 ri2 : ResourceInterface γ ε)
    (ihk : Bool) (username password : String) (selS : Option SecretKeySelector)
    (cs2 : List SecretCall)
    (h : ∀ c ∈ (gitStep3 (δ := δ) ctx ri1 ihk username password selS cs2).calls,
      ri1 ctx c.name c.key = ri2 ctx c.name c.key) :
    gitStep3 (δ := δ) ctx ri1 ihk username password selS cs2 =
      gitStep3 (δ := δ) ctx ri2 ihk username password selS cs2 := by
  cases selS with
  | none => simp only [gitStep3, gitResolveOpt_none, bindStep_inl]
  | some s =>
    rcases hr : ri1 ctx s.Name s.Key with ⟨v, e⟩
    cases e with
    | some e =>
      have hag := h ⟨s.Name, s.Key⟩ (by
        simp only [gitStep3, gitResolveOpt_err ctx ri1 s cs2 v e hr, bindStep_inr]
        simp)
      simp only [gitStep3, gitResolveOpt_err ctx ri1 s cs2 v e hr,
        gitResolveOpt_err ctx ri2 s cs2 v e (hag.symm.trans hr), bindStep_inr]
    | none =>
      have hag := h ⟨s.Name, s.Key⟩ (by
        simp only [gitStep3, gitResolveOpt_ok ctx ri1 s cs2 v hr, bindStep_inl]
        simp)
      simp only [gitStep3, gitResolveOpt_ok ctx ri1 s cs2 v hr,
        gitResolveOpt_ok ctx ri2 s cs2 v (hag.symm.trans hr), bindStep_inl]

theorem gitStep2_agree {γ ε δ : Type} (ctx : γ) (ri1 ri2 : ResourceInterface γ ε)
    (ihk : Bool) (username : String) (selP selS : Option SecretKeySelector)
    (cs1 : List SecretCall)
    (h : ∀ c ∈ (gitStep2 (δ := δ) ctx ri1 ihk username selP selS cs1).calls,
      ri1 ctx c.name c.key = ri2 ctx c.name c.key) :
    gitStep2 (δ := δ) ctx ri1 ihk username selP selS cs1 =
      gitStep2 (δ := δ) ctx ri2 ihk username selP selS cs1 := by
  cases selP with
  | none =>
    simp only [gitStep2, gitResolveOpt_none, bindStep_inl] at h ⊢
    exact gitStep3_agree ctx ri1 ri2 ihk username "" selS cs1 h
  | some s =>
    rcases hr : ri1 ctx s.Name s.Key with ⟨v, e⟩
    cases e with
    | some e =>
      have hag := h ⟨s.Name, s.Key⟩ (by
        simp only [gitStep2, gitResolveOpt_err ctx ri1 s cs1 v e hr, bindStep_inr]
        simp)
      simp only [gitStep2, gitResolveOpt_err ctx ri1 s cs1 v e hr,
        gitResolveOpt_err ctx ri2 s cs1 v e (hag.symm.trans hr), bindStep_inr]
    | none =>
      have hag := h ⟨s.Name, s.Key⟩ (by
        simp only [gitStep2, gitResolveOpt_ok ctx ri1 s cs1 v hr, bindStep_inl]
        exact gitStep3_calls_mono ctx ri1 ihk username v selS (cs1 ++ [⟨s.Name, s.Key⟩])
          ⟨s.Name, s.Key⟩ (by simp))
      have hh : ∀ c ∈ (gitStep3 (δ := δ) ctx ri1 ihk username v selS
          (cs1 ++ [⟨s.Name, s.Key⟩])).calls, ri1 ctx c.name c.key = ri2 ctx c.name c.key := by
        intro c hc
        apply h c
        simp only [gitStep2, gitResolveOpt_ok ctx ri1 s cs1 v hr, bindStep_inl]
        exact hc
      simp only [gitStep2, gitResolveOpt_ok ctx ri1 s cs1 v hr,
        gitResolveOpt_ok ctx ri2 s cs1 v (hag.symm.trans hr), bindStep_inl]
      exact gitStep3_agree ctx ri1 ri2 ihk username v selS (cs1 ++ [⟨s.Name, s.Key⟩]) hh

theorem constructGit_agree {γ ε δ : Type} (ctx : γ) (ri1 ri2 : ResourceInterface γ ε)
    (conf : GitArtifact)
    (h : ∀ c ∈ (constructGit (δ := δ) ctx ri1 conf).calls,
      ri1 ctx c.name c.key = ri2 ctx c.name c.key) :
    constructGit (δ := δ) ctx ri1 conf = constructGit (δ := δ) ctx ri2 conf := by
  rw [constructGit_eq_steps ctx ri1 conf] at h
  rw [constructGit_eq_steps ctx ri1 conf, constructGit_eq_steps ctx ri2 conf]
  cases hU : conf.UsernameSecret with
  | none =>
    simp only [hU, gitResolveOpt_none, bindStep_inl] at h ⊢
    exact gitStep2_agree ctx ri1 ri2 conf.InsecureIgnoreHostKey "" conf.PasswordSecret
      conf.SSHPrivateKeySecret [] h
  | some s =>
    rcases hr : ri1 ctx s.Name s.Key with ⟨v, e⟩
    cases e with
    | some e =>
      have hag := h ⟨s.Name, s.Key⟩ (by
        simp only [hU, gitResolveOpt_err ctx ri1 s [] v e hr, bindStep_inr]
        simp)
      simp only [hU, gitResolveOpt_err ctx ri1 s [] v e hr,
        gitResolveOpt_err ctx ri2 s [] v e (hag.symm.trans hr), bindStep_inr]
    | none =>
      have hag := h ⟨s.Name, s.Key⟩ (by
        simp only [hU, gitResolveOpt_ok ctx ri1 s [] v hr, bindStep_inl]
        exact gitStep2_calls_mono ctx ri1 conf.InsecureIgnoreHostKey v conf.PasswordSecret
          conf.SSHPrivateKeySecret ([] ++ [⟨s.Name, s.Key⟩]) ⟨s.Name, s.Key⟩ (by simp))
      have hh : ∀ c ∈ (gitStep2 (δ := δ) ctx ri1 conf.InsecureIgnoreHostKey v
          conf.PasswordSecret conf.SSHPrivateKeySecret ([] ++ [⟨s.Name, s.Key⟩])).calls,
          ri1 ctx c.name c.key = ri2 ctx c.name c.key := by
        intro c hc
        apply h c
        simp only [hU, gitResolveOpt_ok ctx ri1 s [] v hr, bindStep_inl]
        exact hc
      simp only [hU, gitResolveOpt_ok ctx ri1 s [] v hr,
        gitResolveOpt_ok ctx ri2 s [] v (hag.symm.trans hr), bindStep_inl]
      exact gitStep2_agree ctx ri1 ri2 conf.InsecureIgnoreHostKey v conf.PasswordSecret
        conf.SSHPrivateKeySecret ([] ++ [⟨s.Name, s.Key⟩]) hh

/-! ## C9 -/

/-- C9: the factory is deterministic and interacts with the outside world
only through resolver reads: any two resolvers that agree on every
`GetSecret` call the factory records produce identical `(driver, error)`
results and traces (given that the external HDFS constructor, which is
outside the factory, does too).  In particular two calls with the same
arguments return identical results. -/
theorem newDriver_resolver_extensional {γ ε δ η : Type} (ctx : γ) (art : Artifact η)
    (ri1 ri2 : ResourceInterface γ ε)
    (hdfsCreateDriver : γ → ResourceInterface γ ε → η → FactoryResult ε δ)
    (hH : ∀ conf, art.HDFS = some conf →
      hdfsCreateDriver ctx ri1 conf = hdfsCreateDriver ctx ri2 conf)
    (h : ∀ c ∈ (NewDriver ctx art ri1 hdfsCreateDriver).calls,
      ri1 ctx c.name c.key = ri2 ctx c.name c.key) :
    NewDriver ctx art ri1 hdfsCreateDriver = NewDriver ctx art ri2 hdfsCreateDriver := by
  cases h1 : art.S3 with
  | some conf =>
    rw [newDriver_s3_branch ctx art ri1 hdfsCreateDriver conf h1] at h
    rw [newDriver_s3_branch ctx art ri1 hdfsCreateDriver conf h1,
        newDriver_s3_branch ctx art ri2 hdfsCreateDriver conf h1]
    exact constructS3_agree ctx ri1 ri2 conf h
  | none =>
  cases h2 : art.HTTP with
  | some conf =>
    rw [newDriver_http_branch ctx art ri1 hdfsCreateDriver conf h1 h2,
        newDriver_http_branch ctx art ri2 hdfsCreateDriver conf h1 h2]
  | none =>
  cases h3 : art.Git with
  | some conf =>
    rw [newDriver_git_branch ctx art ri1 hdfsCreateDriver conf h1 h2 h3] at h
    rw [newDriver_git_branch ctx art ri1 hdfsCreateDriver conf h1 h2 h3,
        newDriver_git_branch ctx art ri2 hdfsCreateDriver conf h1 h2 h3]
    exact constructGit_agree ctx ri1 ri2 conf h
  | none =>
  cases h4 : art.Artifactory with
  | some conf =>
    rw [newDriver_artifactory_branch ctx art ri1 hdfsCreateDriver conf h1 h2 h3 h4] at h
    rw [newDriver_artifactory_branch ctx art ri1 hdfsCreateDriver conf h1 h2 h3 h4,
        newDriver_artifactory_branch ctx art ri2 hdfsCreateDriver conf h1 h2 h3 h4]
    exact constructArtifactory_agree ctx ri1 ri2 conf h
  | none =>
  cases h5 : art.HDFS with
  | some conf =>
    rw [newDriver_hdfs_branch ctx art ri1 hdfsCreateDriver conf h1 h2 h3 h4 h5,
        newDriver_hdfs_branch ctx art ri2 hdfsCreateDriver conf h1 h2 h3 h4 h5]
    exact hH conf h5
  | none =>
  cases h6 : art.Raw with
  | some conf =>
    rw [newDriver_raw_branch ctx art ri1 hdfsCreateDriver conf h1 h2 h3 h4 h5 h6,
        newDriver_raw_branch ctx art ri2 hdfsCreateDriver conf h1 h2 h3 h4 h5 h6]
  | none =>
  cases h7 : art.OSS with
  | some conf =>
    rw [newDriver_oss_branch ctx art ri1 hdfsCreateDriver conf h1 h2 h3 h4 h5 h6 h7] at h
    rw [newDriver_oss_branch ctx art ri1 hdfsCreateDriver conf h1 h2 h3 h4 h5 h6 h7,
        newDriver_oss_branch ctx art ri2 hdfsCreateDriver conf h1 h2 h3 h4 h5 h6 h7]
    exact constructOSS_agree ctx ri1 ri2 conf h
  | none =>
  cases h8 : art.GCS with
  | some conf =>
    rw [newDriver_gcs_branch ctx art ri1 hdfsCreateDriver conf h1 h2 h3 h4 h5 h6 h7 h8] at h
    rw [newDriver_gcs_branch ctx art ri1 hdfsCreateDriver conf h1 h2 h3 h4 h5 h6 h7 h8,
        newDriver_gcs_branch ctx art ri2 hdfsCreateDriver conf h1 h2 h3 h4 h5 h6 h7 h8]
    exact constructGCS_agree ctx ri1 ri2 conf h
  | none =>
    rw [newDriver_no_variant ctx art ri1 hdfsCreateDriver h1 h2 h3 h4 h5 h6 h7 h8,
        newDriver_no_variant ctx art ri2 hdfsCreateDriver h1 h2 h3 h4 h5 h6 h7 h8]

/-- C9 witness: two different resolvers that agree on the single recorded
call yield identical results. -/
theorem newDriver_resolver_extensional_witness :
    NewDriver () artGitSSHOnly okResolver hdfsStub =
      NewDriver () artGitSSHOnly okResolverPrimed hdfsStub :=
  newDriver_resolver_extensional () artGitSSHOnly okResolver okResolverPrimed hdfsStub
    (fun _ hc => Option.noConfusion hc) (by decide)

/-! ## C10 -/

/-- C10: for an active S3 (or OSS) config with a non-empty access-key secret
name but an empty secret-key secret name, once the access key resolves the
secret-key resolution is still attempted, passing the empty name through to
the resolver; the outcome then follows the resolver's response (success
populates the secret key, failure is returned with a nil driver). -/
theorem newDriver_empty_secret_key_name_passthrough {γ ε δ η : Type} (ctx : γ)
    (art : Artifact η) (ri : ResourceInterface γ ε)
    (hdfsCreateDriver : γ → ResourceInterface γ ε → η → FactoryResult ε δ) :
    (∀ conf : S3Artifact, art.S3 = some conf → conf.AccessKeySecret.Name ≠ "" →
      conf.SecretKeySecret.Name = "" →
      ∀ v1, ri ctx conf.AccessKeySecret.Name conf.AccessKeySecret.Key = (v1, none) →
      ((NewDriver ctx art ri hdfsCreateDriver).calls =
        [⟨conf.AccessKeySecret.Name, conf.AccessKeySecret.Key⟩,
         ⟨"", conf.SecretKeySecret.Key⟩]) ∧
      (∀ v2, ri ctx "" conf.SecretKeySecret.Key = (v2, none) →
        NewDriver ctx art ri hdfsCreateDriver =
          ⟨some (ArtifactDriver.s3
            { Endpoint := conf.Endpoint
              AccessKey := v1
              SecretKey := v2
              Secure := match conf.Insecure with
                | none => true
                | some insecure => !insecure
              Region := conf.Region
              RoleARN := conf.RoleARN
              UseSDKCreds := conf.UseSDKCreds }), none,
           [⟨conf.AccessKeySecret.Name, conf.AccessKeySecret.Key⟩,
            ⟨"", conf.SecretKeySecret.Key⟩]⟩) ∧
      (∀ v2 e, ri ctx "" conf.SecretKeySecret.Key = (v2, some e) →
        NewDriver ctx art ri hdfsCreateDriver =
          ⟨none, some e,
           [⟨conf.AccessKeySecret.Name, conf.AccessKeySecret.Key⟩,
            ⟨"", conf.SecretKeySecret.Key⟩]⟩)) ∧
    (∀ conf : OSSArtifact, art.S3 = none → art.HTTP = none → art.Git = none →
      art.Artifactory = none → art.HDFS = none → art.Raw = none →
      art.OSS = some conf → conf.AccessKeySecret.Name ≠ "" →
      conf.SecretKeySecret.Name = "" →
      ∀ v1, ri ctx conf.AccessKeySecret.Name conf.AccessKeySecret.Key = (v1, none) →
      ((NewDriver ctx art ri hdfsCreateDriver).calls =
        [⟨conf.AccessKeySecret.Name, conf.AccessKeySecret.Key⟩,
         ⟨"", conf.SecretKeySecret.Key⟩]) ∧
      (∀ v2, ri ctx "" conf.SecretKeySecret.Key = (v2, none) →
        NewDriver ctx art ri hdfsCreateDriver =
          ⟨some (ArtifactDriver.oss
            { Endpoint := conf.Endpoint, AccessKey := v1, SecretKey := v2 }), none,
           [⟨conf.AccessKeySecret.Name, conf.AccessKeySecret.Key⟩,
            ⟨"", conf.SecretKeySecret.Key⟩]⟩) ∧
      (∀ v2 e, ri ctx "" conf.SecretKeySecret.Key = (v2, some e) →
        NewDriver ctx art ri hdfsCreateDriver =
          ⟨none, some e,
           [⟨conf.AccessKeySecret.Name, conf.AccessKeySecret.Key⟩,
            ⟨"", conf.SecretKeySecret.Key⟩]⟩)) := by
  constructor
  · intro conf hS3 hn hsk v1 hv1
    rw [newDriver_s3_branch ctx art ri hdfsCreateDriver conf hS3]
    refine ⟨?_, ?_, ?_⟩
    · rcases h2 : ri ctx conf.SecretKeySecret.Name conf.SecretKeySecret.Key with ⟨v2, e2⟩
      cases e2 with
      | some e =>
        rw [constructS3_secret_err ctx ri conf v1 v2 e hn hv1 h2, hsk]
      | none =>
        rw [constructS3_ok ctx ri conf v1 v2 hn hv1 h2, hsk]
    · intro v2 hv2
      have h2 : ri ctx conf.SecretKeySecret.Name conf.SecretKeySecret.Key = (v2, none) := by
        rw [hsk]; exact hv2
      rw [constructS3_ok ctx ri conf v1 v2 hn hv1 h2, hsk]
    · intro v2 e hv2
      have h2 : ri ctx conf.SecretKeySecret.Name conf.SecretKeySecret.Key = (v2, some e) := by
        rw [hsk]; exact hv2
      rw [constructS3_secret_err ctx ri conf v1 v2 e hn hv1 h2, hsk]
  · intro conf h1 h2 h3 h4 h5 h6 hOSS hn hsk v1 hv1
    rw [newDriver_oss_branch ctx art ri hdfsCreateDriver conf h1 h2 h3 h4 h5 h6 hOSS]
    refine ⟨?_, ?_, ?_⟩
    · rcases hw : ri ctx conf.SecretKeySecret.Name conf.SecretKeySecret.Key with ⟨v2, e2⟩
      cases e2 with
      | some e =>
        rw [constructOSS_secret_err ctx ri conf v1 v2 e hn hv1 hw, hsk]
      | none =>
        rw [constructOSS_ok ctx ri conf v1 v2 hn hv1 hw, hsk]
    · intro v2 hv2
      have hw : ri ctx conf.SecretKeySecret.Name conf.SecretKeySecret.Key = (v2, none) := by
        rw [hsk]; exact hv2
      rw [constructOSS_ok ctx ri conf v1 v2 hn hv1 hw, hsk]
    · intro v2 e hv2
      have hw : ri ctx conf.SecretKeySecret.Name conf.SecretKeySecret.Key = (v2, some e) := by
        rw [hsk]; exact hv2
      rw [constructOSS_secret_err ctx ri conf v1 v2 e hn hv1 hw, hsk]

/-- C10 witness: with an empty secret-key name, the second call is still made
with the empty name, and the resolver's successful response populates the
secret key. -/
theorem newDriver_empty_secret_key_name_passthrough_witness :
    ((NewDriver () artS3EmptySecretName okResolver hdfsStub).calls =
      [⟨"ak", "k1"⟩, ⟨"", "k2"⟩]) ∧
    NewDriver () artS3EmptySecretName okResolver hdfsStub =
      ⟨some (ArtifactDriver.s3
        { Endpoint := "ep2"
          AccessKey := "PRIVATEKEY"
          SecretKey := "PRIVATEKEY"
          Secure := true
          Region := ""
          RoleARN := ""
          UseSDKCreds := false }), none, [⟨"ak", "k1"⟩, ⟨"", "k2"⟩]⟩ :=
  ⟨((newDriver_empty_secret_key_name_passthrough () artS3EmptySecretName okResolver
      hdfsStub).1 s3ConfEmptySecretName rfl (by decide) rfl "PRIVATEKEY" rfl).1,
   ((newDriver_empty_secret_key_name_passthrough () artS3EmptySecretName okResolver
      hdfsStub).1 s3ConfEmptySecretName rfl (by decide) rfl "PRIVATEKEY" rfl).2.1
     "PRIVATEKEY" rfl⟩

